import Mathlib

set_option maxHeartbeats 1000000

/-!
Verification of the dynamic MCP client connection manager and tool catalog
of the strands_tools repository, as a shallow embedding in Lean 4.

Source files embedded:
- src/strands_tools/mcp_client.py
- src/strands_tools/tool_catalog_manager.py
- src/strands_tools/tool_catalog.py
- src/strands_tools/batch.py

Modelling conventions:
- Python dicts are association lists (first match wins on lookup, key
  update replaces in place, new keys append), mirroring insertion order.
- Timestamps (time.time(), _now_iso()) are Int clock values supplied by
  the caller; distinct reads of the clock are distinct parameters.
- Calls into the external MCP SDK (list_tools_sync, call_tool_sync, ...)
  are oracle parameters of type Except String _, where .error e models
  the SDK call raising an exception whose str() is e.
- The on-disk catalog JSON file is the tools field of CatalogState; the
  derived Markdown rendering carries no state read back by the code and
  is omitted.
-/

/-- A JSON-like value, modelling the Python str/int/bool/None/list/dict
values carried by the catalog and by tool envelopes. -/
inductive JVal where
  | str (s : String)
  | num (n : Int)
  | bool (b : Bool)
  | null
  | arr (xs : List JVal)
  | obj (fields : List (String × JVal))

/-- Python truthiness of a JVal (empty string, zero, False, None, empty
list and empty dict are falsy). -/
def JVal.truthy : JVal → Bool
  | .str s => s ≠ ""
  | .num n => n ≠ 0
  | .bool b => b
  | .null => false
  | .arr xs => !xs.isEmpty
  | .obj fs => !fs.isEmpty

/-- A Python dict with string keys, as the catalog stores entries. -/
abbrev Entry := List (String × JVal)

/-- Python d.get(k) over an Entry. -/
def dget : Entry → String → Option JVal
  | [], _ => none
  | (k, v) :: rest, key => if k = key then some v else dget rest key

/-- Python old.update(new): values of keys present in new overwrite those
in old, keys of old absent from new are retained in place, keys of new
absent from old are appended in order. -/
def dictUpdate (old new : Entry) : Entry :=
  old.map (fun p => (p.1, (dget new p.1).getD p.2)) ++
    new.filter (fun p => (dget old p.1).isNone)

/-- Python d.setdefault(k, v): add the key only when it is absent. -/
def dsetdefault (e : Entry) (k : String) (v : JVal) : Entry :=
  if (dget e k).isSome then e else e ++ [(k, v)]

/-- Coerce an optional string to a JVal (None becomes null). -/
def optStr : Option String → JVal
  | some s => .str s
  | none => .null

/-- Python a or b over an optional string a (None and "" are falsy). -/
def orElseStr (a : Option String) (b : String) : String :=
  match a with
  | some s => if s = "" then b else s
  | none => b

/-- Python a or b where both sides are optional strings. -/
def orOptStr (a b : Option String) : Option String :=
  match a with
  | some s => if s = "" then b else some s
  | none => b

/-- Python truthiness filter on an optional string: None and "" become
None. -/
def truthyStr : Option String → Option String
  | none => none
  | some s => if s = "" then none else some s

/-- The catalog name of an entry when it is a truthy string
(name = entry.get("name"); if not name: skip). The registering API only
ever writes string names; a non-string name, possible only through a
hand-edited catalog file, is treated as absent. -/
def entryName (e : Entry) : Option String :=
  match dget e "name" with
  | some (.str s) => if s = "" then none else some s
  | _ => none

/-- Python entry.get("name") == n for a string n. -/
def entryHasName (e : Entry) (n : String) : Bool :=
  match dget e "name" with
  | some (.str s) => s = n
  | _ => false

/-- Number of catalog entries carrying the name n. -/
def countName (ts : List Entry) (n : String) : Nat :=
  (ts.filter (fun e => entryHasName e n)).length

/-- In-memory state of ToolCatalogManager: the persisted tools list, the
generated_at stamp of the last write, and the overview cache
infrastructure (cache value, cache time, TTL). -/
structure CatalogState where
  tools : List Entry
  generated_at : Int
  overview_cache : Option JVal
  overview_cache_time : Option Int
  overview_cache_ttl : Int

/-- Default of STRANDS_TOOL_SANDBOX_STATUS (_default_sandbox_status). -/
def defaultSandboxStatus : String := "Electron UtilityProcess"

/-- The _default_execute_pathway template (load_path is used only when
truthy). -/
def defaultExecutePathway (name : String) (load_path : Option String) : Option String :=
  if name = "" then none
  else
    match load_path with
    | some p =>
        if p = "" then some (s!"tool_execute(name='{name}', arguments=\x7b...\x7d)")
        else some (s!"tool_execute(name='{name}', arguments=\x7b...\x7d, load_path='{p}', load_if_missing=True)")
    | none => some (s!"tool_execute(name='{name}', arguments=\x7b...\x7d)")

/-- ToolCatalogManager._write_catalog: persist the tools list, refresh
generated_at, and invalidate the overview cache (invalidate_cache). -/
def writeCatalog (c : CatalogState) (tools : List Entry) (now : Int) : CatalogState :=
  { c with
    tools := tools
    generated_at := now
    overview_cache := none
    overview_cache_time := none }

/-- The search-and-merge step of ToolCatalogManager._upsert_entry: the
first existing entry with the given name is updated in place via dict
update; with no match the new entry is appended. -/
def upsertByName : List Entry → String → Entry → List Entry
  | [], _, e => [e]
  | item :: rest, n, e =>
    if entryHasName item n then dictUpdate item e :: rest
    else item :: upsertByName rest n e

/-- ToolCatalogManager._upsert_entry: no-op when the entry has no truthy
name (no write, so no cache invalidation), otherwise upsert and write. -/
def upsertEntry (c : CatalogState) (entry : Entry) (now : Int) : CatalogState :=
  match entryName entry with
  | none => c
  | some n => writeCatalog c (upsertByName c.tools n entry) now

/-- The entry dict built by ToolCatalogManager.register_entry. -/
def registerEntryDict (name description : String) (input_schema : Option JVal)
    (origin : String)
    (sandbox_status category path load_pathway execute_pathway unload_pathway : Option String)
    (now : Int) : Entry :=
  [("name", .str name),
   ("description", .str description),
   ("input_schema", match input_schema with
      | some j => if j.truthy then j else .obj []
      | none => .obj []),
   ("path", optStr path),
   ("origin", .str origin),
   ("category", .str (orElseStr category origin)),
   ("sandbox_status", .str (orElseStr sandbox_status defaultSandboxStatus)),
   ("last_updated", .num now),
   ("load_pathway", optStr load_pathway),
   ("execute_pathway", optStr (orOptStr execute_pathway (defaultExecutePathway name path))),
   ("unload_pathway", optStr unload_pathway)]

/-- ToolCatalogManager.register_entry: build the entry dict and upsert it
by name; now stands for _now_iso(). -/
def registerEntry (c : CatalogState) (name description : String) (input_schema : Option JVal)
    (origin : String)
    (sandbox_status category path load_pathway execute_pathway unload_pathway : Option String)
    (now : Int) : CatalogState :=
  upsertEntry c
    (registerEntryDict name description input_schema origin
      sandbox_status category path load_pathway execute_pathway unload_pathway now) now

/-- A loadable tool record of the external discovery manifest. Absent or
falsy fields are None or "". -/
structure DiscTool where
  name : String
  description : String
  input_schema : Option JVal
  path : Option String
  category : Option String
  last_updated : Option Int
  load_command : Option String
  unload_command : Option String

/-- An MCP server record of the discovery manifest. -/
structure DiscServer where
  id : String
  description : String
  path : Option String
  connect_command : Option String
  connection_command : Option String

/-- An OpenAPI spec record of the discovery manifest. -/
structure DiscSpec where
  name : String
  file : String
  path : Option String
  mcp_command : Option String

/-- The read-only discovery manifest (each list is present only when the
manifest holds it as a list). -/
structure Discovery where
  loadable_tools : Option (List DiscTool)
  mcp_servers : Option (List DiscServer)
  openapi_specs : Option (List DiscSpec)

/-- The CATEGORY_LABELS table. -/
def categoryLabels : String → Option String
  | "built_in" => some "Built-in Tools"
  | "dynamically_loaded" => some "Dynamically Loaded Tools"
  | "mcp_tools" => some "MCP Tools"
  | "strands_tools" => some "Strands Tools"
  | "strands_fun_tools" => some "Strands Fun Tools"
  | "strands_google" => some "Strands Google Tools"
  | "fda" => some "FDA Tools"
  | "pubmed" => some "PubMed Tools"
  | "perplexity" => some "Perplexity Tools"
  | "custom" => some "Custom Tools"
  | "mcp_servers" => some "MCP Servers"
  | "openapi_specs" => some "OpenAPI Specs"
  | _ => none

/-- The DEFAULT_CATEGORY_ORDER list (_category_order with the environment
override unset). -/
def defaultCategoryOrder : List String :=
  ["built_in", "dynamically_loaded", "mcp_tools", "strands_tools",
   "strands_fun_tools", "strands_google", "fda", "pubmed", "perplexity",
   "custom", "mcp_servers", "openapi_specs"]

/-- Python str.title() over a single word: first character upper, rest
lower. -/
def titleWord (w : String) : String :=
  (w.take 1).toUpper ++ (w.drop 1).toLower

/-- Python category_id.replace("_", " ").title(), the fallback label. -/
def fallbackLabel (category_id : String) : String :=
  String.intercalate " " (((category_id.replace "_" " ").splitOn " ").map titleWord)

/-- Label for a category id (CATEGORY_LABELS.get with the title-cased
fallback). -/
def labelFor (category_id : String) : String :=
  (categoryLabels category_id).getD (fallbackLabel category_id)

/-- One overview category under construction: id, label, and the raw
tools list (tool-info dicts for catalog entries, bare id strings for MCP
servers and OpenAPI specs). -/
structure OvCat where
  id : String
  label : String
  tools : List JVal

/-- Update-or-append into an association keyed by a string, keeping
insertion order (Python dict assignment). -/
def assocSet : List (String × Entry) → String → Entry → List (String × Entry)
  | [], k, v => [(k, v)]
  | (k0, v0) :: rest, k, v =>
    if k0 = k then (k, v) :: rest else (k0, v0) :: assocSet rest k v

/-- The setdefault block applied to every named catalog entry while
building tools_by_name in build_catalog_overview. -/
def overviewDefaults (name : String) (e : Entry) : Entry :=
  dsetdefault
    (dsetdefault
      (dsetdefault e "execute_pathway" (optStr (defaultExecutePathway name none)))
      "unload_pathway" (.str s!"unload_tool(name='{name}')"))
    "load_pathway" (.str "already_loaded")

/-- The tools_by_name pass of build_catalog_overview over the persisted
catalog: entries without a truthy name are skipped, the rest get the
pathway defaults and are keyed by name (later duplicates overwrite). -/
def toolsByNameFromCatalog (tools : List Entry) : List (String × Entry) :=
  tools.foldl
    (fun acc e =>
      match entryName e with
      | none => acc
      | some n => assocSet acc n (overviewDefaults n e))
    []

/-- The transient overview entry built for a discovery loadable tool that
is not already in the catalog. -/
def discToolEntry (t : DiscTool) (catalog_generated_at : Int) : Entry :=
  [("name", .str t.name),
   ("description", .str t.description),
   ("input_schema", match t.input_schema with | some j => j | none => .null),
   ("path", optStr t.path),
   ("origin", .str (orElseStr t.category "loadable")),
   ("category", .str (orElseStr t.category "loadable")),
   ("sandbox_status", .str defaultSandboxStatus),
   ("last_updated", .num (t.last_updated.getD catalog_generated_at)),
   ("load_pathway", optStr t.load_command),
   ("execute_pathway", optStr (defaultExecutePathway t.name t.path)),
   ("unload_pathway", .str (orElseStr t.unload_command s!"unload_tool(name='{t.name}')")),
   ("status", .str "available")]

/-- Merge the discovery loadable tools into tools_by_name: a truthy new
name is added at the end, an existing name is left untouched. -/
def mergeLoadable (m : List (String × Entry)) (ts : List DiscTool) (gen : Int) :
    List (String × Entry) :=
  ts.foldl
    (fun acc t =>
      if t.name = "" then acc
      else if (acc.map Prod.fst).contains t.name then acc
      else acc ++ [(t.name, discToolEntry t gen)])
    m

/-- Category id of an entry: entry.get("category") or entry.get("origin")
or "other" (non-string truthy values, impossible through the registering
API, are treated like the fallback). -/
def entryCategoryId (e : Entry) : String :=
  match dget e "category" with
  | some (.str s) =>
    if s ≠ "" then s
    else
      match dget e "origin" with
      | some (.str o) => if o ≠ "" then o else "other"
      | _ => "other"
  | _ =>
    match dget e "origin" with
    | some (.str o) => if o ≠ "" then o else "other"
    | _ => "other"

/-- Append a raw tools value to a category, creating the category at the
end on first touch (categories.setdefault followed by append). -/
def catsAppend (cats : List OvCat) (cid : String) (v : JVal) : List OvCat :=
  if (cats.map OvCat.id).contains cid then
    cats.map (fun c => if c.id = cid then { c with tools := c.tools ++ [v] } else c)
  else
    cats ++ [{ id := cid, label := labelFor cid, tools := [v] }]

/-- Ensure a category exists without touching its tools
(categories.setdefault alone). -/
def catsEnsure (cats : List OvCat) (cid : String) : List OvCat :=
  if (cats.map OvCat.id).contains cid then cats
  else cats ++ [{ id := cid, label := labelFor cid, tools := [] }]

/-- The _add_entry_to_category closure: build the tool-info dict (name,
plus description and input_summary when truthy) and append it to the
entry's category. -/
def addToCategory (cats : List OvCat) (e : Entry) : List OvCat :=
  let info : Entry :=
    [("name", (dget e "name").getD .null)] ++
      (match dget e "description" with
        | some d => if d.truthy then [("description", d)] else []
        | none => []) ++
      (match dget e "input_summary" with
        | some s => if s.truthy then [("input_summary", s)] else []
        | none => [])
  catsAppend cats (entryCategoryId e) (.obj info)

/-- Categories reordered by the configured category order, then the
remaining ones in insertion order. -/
def orderCats (cats : List OvCat) : List OvCat :=
  (defaultCategoryOrder.filterMap (fun cid => cats.find? (fun c => c.id = cid))) ++
    cats.filter (fun c => !(defaultCategoryOrder.contains c.id))

/-- Insertion sort on strings. -/
def insertSorted (x : String) : List String → List String
  | [] => [x]
  | y :: ys => if x ≤ y then x :: y :: ys else y :: insertSorted x ys

/-- Sorted list of the distinct members, Python sorted(set(xs)) for
strings. -/
def sortedDedup (xs : List String) : List String :=
  (xs.foldl (fun acc x => if acc.contains x then acc else acc ++ [x]) []).foldr insertSorted []

/-- The final per-category pass of build_catalog_overview: keep the
truthy members, then sorted(set(tools)). The tool-info dicts appended by
_add_entry_to_category are unhashable, so set() raises TypeError whenever
one is present; only bare string members survive the pass. -/
def finalizeCat (c : OvCat) : Except String JVal :=
  let kept := c.tools.filter JVal.truthy
  match kept.mapM (fun v => match v with | .str s => some s | _ => none) with
  | none => .error "TypeError: unhashable type: 'dict'"
  | some names =>
    let sorted := sortedDedup names
    .ok (.obj [("id", .str c.id), ("label", .str c.label),
               ("tools", .arr (sorted.map JVal.str)),
               ("count", .num sorted.length)])

/-- The uncached body of build_catalog_overview; tGen is the _now_iso()
read that becomes generated_at. A .error result models the call raising
TypeError (see finalizeCat). -/
def computeOverview (c : CatalogState) (disc : Option Discovery) (tGen : Int) :
    Except String JVal :=
  let base := toolsByNameFromCatalog c.tools
  let merged :=
    match disc with
    | some d =>
      match d.loadable_tools with
      | some ts => mergeLoadable base ts c.generated_at
      | none => base
    | none => base
  let cats0 := merged.foldl (fun acc p => addToCategory acc p.2) []
  let cats1 :=
    match disc with
    | some d =>
      match d.mcp_servers with
      | some servers =>
        (servers.foldl
          (fun acc s => if s.id = "" then acc else catsAppend acc "mcp_servers" (.str s.id))
          (catsEnsure cats0 "mcp_servers"))
      | none => cats0
    | none => cats0
  let cats2 :=
    match disc with
    | some d =>
      match d.openapi_specs with
      | some specs =>
        (specs.foldl
          (fun acc s => if s.name = "" then acc else catsAppend acc "openapi_specs" (.str s.name))
          (catsEnsure cats1 "openapi_specs"))
      | none => cats1
    | none => cats1
  ((orderCats cats2).mapM finalizeCat).map
    (fun fs => .obj [("generated_at", .num tGen), ("categories", .arr fs)])

/-- ToolCatalogManager.build_catalog_overview. tCheck is the time.time()
read of the cache test, tGen the _now_iso() that becomes generated_at,
tStore the time.time() stored as the new cache time. On a cache hit the
cached value is returned unchanged; on a miss the overview is recomputed
and cached; a TypeError (.error) leaves the cache untouched. -/
def buildCatalogOverview (c : CatalogState) (disc : Option Discovery)
    (tCheck tGen tStore : Int) : Except String JVal × CatalogState :=
  let hit : Option JVal :=
    match c.overview_cache, c.overview_cache_time with
    | some cached, some tc =>
      if tCheck - tc < c.overview_cache_ttl then some cached else none
    | _, _ => none
  match hit with
  | some cached => (.ok cached, c)
  | none =>
    match computeOverview c disc tGen with
    | .error e => (.error e, c)
    | .ok r =>
      (.ok r, { c with overview_cache := some r, overview_cache_time := some tStore })

/-- One content block of a tool result envelope. -/
inductive Block where
  | text (s : String)
  | json (j : JVal)

/-- The two-key result envelope built throughout the repository:
status ("success" or "error") plus a content block list. -/
structure Envelope where
  status : String
  content : List Block

/-- Shorthand for the error envelope pattern used across mcp_client. -/
def errEnv (msg : String) : Envelope := ⟨"error", [.text msg]⟩

/-- The SDK ToolResult shape (toolUseId, status, content) that
MCPTool.stream constructs and call_tool_sync returns. -/
structure ToolResult where
  toolUseId : String
  status : String
  content : List Block

/-- An SDK tool object as this module observes it: tool_name,
tool_spec description, tool_spec inputSchema. An absent name is modelled
as "" (falsy). -/
structure RemoteTool where
  tool_name : String
  description : String
  input_schema : JVal

/-- The ConnectionInfo dataclass of mcp_client.py. The live MCPClient
handle is opaque to the control flow modelled here and is omitted; the
SDK calls made through it are oracle parameters. -/
structure ConnectionInfo where
  connection_id : String
  transport : String
  url : String
  register_time : Int
  is_active : Bool
  last_error : Option String
  loaded_tool_names : List String
  agent_loaded_tool_names : List String

/-- The process state the MCP connection manager touches: the
_connections dict, the tool catalog, and the set of tool names held by
the agent tool registry. -/
structure SysState where
  connections : List (String × ConnectionInfo)
  catalog : CatalogState
  agentRegistry : List String

/-- Dict lookup over the connection table (_connections.get). -/
def lookupConn : List (String × ConnectionInfo) → String → Option ConnectionInfo
  | [], _ => none
  | (k, v) :: rest, cid => if k = cid then some v else lookupConn rest cid

/-- Dict assignment over the connection table
(_connections[connection_id] = info). -/
def insertConn : List (String × ConnectionInfo) → String → ConnectionInfo →
    List (String × ConnectionInfo)
  | [], cid, info => [(cid, info)]
  | (k, v) :: rest, cid, info =>
    if k = cid then (cid, info) :: rest else (k, v) :: insertConn rest cid info

/-- Dict deletion over the connection table (del _connections[cid]). -/
def removeConn : List (String × ConnectionInfo) → String → List (String × ConnectionInfo)
  | [], _ => []
  | (k, v) :: rest, cid => if k = cid then rest else (k, v) :: removeConn rest cid

/-- The merged request parameters reaching the mcp_client action
handlers. Booleans stand for the presence checks the handlers make on
the agent object. -/
structure MCPParams where
  connection_id : Option String := none
  tool_name : Option String := none
  prompt_name : Option String := none
  prompt_args : Option (List (String × JVal)) := none
  pagination_token : Option String := none
  resource_uri : Option String := none
  transport : Option String := none
  command : Option String := none
  args : Option (List String) := none
  env : Option (List (String × String)) := none
  server_url : Option String := none
  load_into_agent_registry : Bool := false
  agentSupplied : Bool := false
  agentHasRegistry : Bool := true

/-- The transport-opening callable selected by
_create_transport_callable. Optional streamable-HTTP settings (headers,
timeouts, terminate_on_close, auth) shape the callable but never the
validation outcome and are not recorded. -/
inductive TransportSpec where
  | stdio (command : String) (args : List String) (env : Option (List (String × String)))
  | sse (server_url : String)
  | streamableHttp (server_url : String)

/-- _create_transport_callable: transport-specific required-parameter
checks; a .error is the ValueError message raised. -/
def createTransportCallable (transport : String) (p : MCPParams) :
    Except String TransportSpec :=
  if transport = "stdio" then
    match truthyStr p.command with
    | none => .error "command is required for stdio transport"
    | some c =>
      .ok (.stdio c (p.args.getD [])
        (match p.env with
          | some e => if e.isEmpty then none else some e
          | none => none))
  else if transport = "sse" then
    match truthyStr p.server_url with
    | none => .error "server_url is required for SSE transport"
    | some u => .ok (.sse u)
  else if transport = "streamable_http" then
    match truthyStr p.server_url with
    | none => .error "server_url is required for streamable HTTP transport"
    | some u => .ok (.streamableHttp u)
  else
    .error s!"Unsupported transport: {transport}. Supported: stdio, sse, streamable_http"

/-- _validate_connection, returning the found connection on success
(the handlers re-fetch the same record after validating). -/
def validateConnection (connection_id : Option String) (check_active : Bool)
    (conns : List (String × ConnectionInfo)) : Except Envelope (String × ConnectionInfo) :=
  match truthyStr connection_id with
  | none => .error (errEnv "connection_id is required")
  | some cid =>
    match lookupConn conns cid with
    | none => .error (errEnv s!"Connection '{cid}' not found")
    | some config =>
      if check_active ∧ ¬config.is_active then
        .error (errEnv s!"Connection '{cid}' is not active")
      else .ok (cid, config)

/-- The success branch of _connect_to_server after the duplicate-active
check: transport construction, probe, and storage of a fresh
ConnectionInfo. -/
def connectTry (cid transport : String) (p : MCPParams)
    (probe : Except String (List RemoteTool)) (now : Int) (st : SysState) :
    Envelope × SysState :=
  match createTransportCallable transport p with
  | .error e => (errEnv s!"Connection failed: {e}", st)
  | .ok _ =>
    match probe with
    | .error e => (errEnv s!"Connection failed: {e}", st)
    | .ok tools =>
      let url :=
        match p.server_url with
        | some u => u
        | none => (p.command.getD "") ++ " " ++ String.intercalate " " (p.args.getD [])
      let info : ConnectionInfo :=
        { connection_id := cid
          transport := transport
          url := url
          register_time := now
          is_active := true
          last_error := none
          loaded_tool_names := []
          agent_loaded_tool_names := [] }
      let res : JVal := .obj
        [("message", .str s!"Connected to MCP server '{cid}'"),
         ("connection_id", .str cid),
         ("transport", .str transport),
         ("tools_count", .num tools.length),
         ("available_tools", .arr (tools.map (fun t => .str t.tool_name)))]
      (⟨"success", [.text s!"Connected to MCP server '{cid}'", .json res]⟩,
       { st with connections := insertConn st.connections cid info })

/-- _connect_to_server: id check, duplicate-active check, then
connectTry; probe is the outcome of the initial list_tools_sync over the
fresh transport. -/
def connectToServer (p : MCPParams) (probe : Except String (List RemoteTool))
    (now : Int) (st : SysState) : Envelope × SysState :=
  match truthyStr p.connection_id with
  | none => (errEnv "connection_id is required for connect action", st)
  | some cid =>
    let transport := p.transport.getD "stdio"
    match lookupConn st.connections cid with
    | some info =>
      if info.is_active then
        (errEnv s!"Connection '{cid}' already exists and is active", st)
      else connectTry cid transport p probe now st
    | none => connectTry cid transport p probe now st

/-- _list_active_connections: a read-only snapshot of every connection
record, active or not. -/
def listActiveConnections (st : SysState) : Envelope × SysState :=
  let infos : List JVal := st.connections.map (fun pr => .obj
    [("connection_id", .str pr.1),
     ("transport", .str pr.2.transport),
     ("url", .str pr.2.url),
     ("is_active", .bool pr.2.is_active),
     ("registered_at", .num pr.2.register_time),
     ("last_error", optStr pr.2.last_error),
     ("loaded_tools_count", .num pr.2.loaded_tool_names.length),
     ("agent_loaded_tools_count", .num pr.2.agent_loaded_tool_names.length)])
  (⟨"success",
    [.text s!"Found {st.connections.length} MCP connections",
     .json (.obj [("total_connections", .num st.connections.length),
                  ("connections", .arr infos)])]⟩, st)

/-- _list_server_tools. -/
def listServerTools (connection_id : Option String)
    (res : Except String (List RemoteTool)) (st : SysState) : Envelope × SysState :=
  match validateConnection connection_id true st.connections with
  | .error e => (e, st)
  | .ok (cid, _) =>
    match res with
    | .error e => (errEnv s!"Failed to list tools: {e}", st)
    | .ok tools =>
      let tools_info : List JVal := tools.map (fun t => .obj
        [("name", .str t.tool_name),
         ("description", .str t.description),
         ("input_schema", t.input_schema)])
      (⟨"success",
        [.text s!"Found {tools.length} tools on MCP server '{cid}'",
         .json (.obj [("connection_id", .str cid),
                      ("tools_count", .num tools.length),
                      ("tools", .arr tools_info)])]⟩, st)

/-- _list_server_prompts. -/
def listServerPrompts (connection_id : Option String)
    (res : Except String JVal) (st : SysState) : Envelope × SysState :=
  match validateConnection connection_id true st.connections with
  | .error e => (e, st)
  | .ok (cid, _) =>
    match res with
    | .error e => (errEnv s!"Failed to list prompts: {e}", st)
    | .ok r =>
      (⟨"success", [.text s!"Listed prompts for MCP server '{cid}'", .json r]⟩, st)

/-- Keys of prompt_args whose values are not strings (the MCP-spec check
of _get_server_prompt). -/
def nonStringKeys (pargs : List (String × JVal)) : List String :=
  (pargs.filter (fun kv => match kv.2 with | .str _ => false | _ => true)).map Prod.fst

/-- _get_server_prompt: prompt_name check, connection validation, then
the all-values-strings check on prompt_args before the SDK call. -/
def getServerPrompt (connection_id prompt_name : Option String)
    (prompt_args : Option (List (String × JVal)))
    (res : Except String JVal) (st : SysState) : Envelope × SysState :=
  match truthyStr prompt_name with
  | none => (errEnv "prompt_name is required for get_prompt action", st)
  | some pname =>
    match validateConnection connection_id true st.connections with
    | .error e => (e, st)
    | .ok (cid, _) =>
      let non_string_keys := nonStringKeys (prompt_args.getD [])
      if ¬non_string_keys.isEmpty then
        (errEnv ("prompt_args values must be strings per MCP spec. Non-string keys: " ++
          String.intercalate ", " non_string_keys), st)
      else
        match res with
        | .error e => (errEnv s!"Failed to get prompt '{pname}': {e}", st)
        | .ok r =>
          (⟨"success",
            [.text s!"Retrieved prompt '{pname}' from MCP server '{cid}'", .json r]⟩, st)

/-- _list_server_resources. -/
def listServerResources (connection_id : Option String)
    (res : Except String JVal) (st : SysState) : Envelope × SysState :=
  match validateConnection connection_id true st.connections with
  | .error e => (e, st)
  | .ok (cid, _) =>
    match res with
    | .error e => (errEnv s!"Failed to list resources: {e}", st)
    | .ok r =>
      (⟨"success", [.text s!"Listed resources for MCP server '{cid}'", .json r]⟩, st)

/-- _list_server_resource_templates. -/
def listServerResourceTemplates (connection_id : Option String)
    (res : Except String JVal) (st : SysState) : Envelope × SysState :=
  match validateConnection connection_id true st.connections with
  | .error e => (e, st)
  | .ok (cid, _) =>
    match res with
    | .error e => (errEnv s!"Failed to list resource templates: {e}", st)
    | .ok r =>
      (⟨"success",
        [.text s!"Listed resource templates for MCP server '{cid}'", .json r]⟩, st)

/-- _read_server_resource. -/
def readServerResource (connection_id resource_uri : Option String)
    (res : Except String JVal) (st : SysState) : Envelope × SysState :=
  match truthyStr resource_uri with
  | none => (errEnv "resource_uri is required for read_resource action", st)
  | some uri =>
    match validateConnection connection_id true st.connections with
    | .error e => (e, st)
    | .ok (cid, _) =>
      match res with
      | .error e => (errEnv s!"Failed to read resource '{uri}': {e}", st)
      | .ok r =>
        (⟨"success",
          [.text s!"Read resource '{uri}' from MCP server '{cid}'", .json r]⟩, st)

/-- A value returned by an mcp_client action: an envelope built by this
module, or, on the call_tool success path, the SDK ToolResult returned
by call_tool_sync forwarded verbatim. -/
inductive MCPRet where
  | env (e : Envelope)
  | forwarded (r : ToolResult)

/-- _call_server_tool: tool_name check, connection validation, then the
SDK call; its success value is returned as-is, an exception becomes an
error envelope, and the connection record is never touched on this
path. -/
def callServerTool (connection_id tool_name : Option String)
    (callRes : Except String ToolResult) (st : SysState) : MCPRet × SysState :=
  match truthyStr tool_name with
  | none => (.env (errEnv "tool_name is required for call_tool action"), st)
  | some _ =>
    match validateConnection connection_id true st.connections with
    | .error e => (.env e, st)
    | .ok _ =>
      match callRes with
      | .ok r => (.forwarded r, st)
      | .error e => (.env (errEnv s!"Failed to call tool: {e}"), st)

/-- _clean_up_tools_from_agent. supportsUnreg models the agent having a
usable tool registry (hasattr checks); unregFail gives the exception
message when unregistering a given name raises, collapsing the
unregister_tool and registry-dict-pop code paths. Returns the cleaned
list, the failed list, and the updated agent registry. -/
def cleanUpToolsFromAgent (supportsUnreg : Bool) (unregFail : String → Option String)
    (tool_names : List String) (reg : List String) :
    List String × List String × List String :=
  if ¬supportsUnreg then ([], tool_names, reg)
  else
    tool_names.foldl
      (fun acc n =>
        match unregFail n with
        | none => (acc.1 ++ [n], acc.2.1, acc.2.2.erase n)
        | some e => (acc.1, acc.2.1 ++ [s!"{n} ({e})"], acc.2.2))
      ([], [], reg)

/-- _disconnect_from_server: validation, removal of the record, then the
best-effort agent cleanup and the result report. -/
def disconnectFromServer (connection_id : Option String) (agentSupplied : Bool)
    (supportsUnreg : Bool) (unregFail : String → Option String) (st : SysState) :
    Envelope × SysState :=
  match validateConnection connection_id false st.connections with
  | .error e => (e, st)
  | .ok (cid, config) =>
    let catalog_tool_names := config.loaded_tool_names
    let agent_tool_names := config.agent_loaded_tool_names
    let conns := removeConn st.connections cid
    let (cleaned, failed, reg) :=
      if agentSupplied ∧ ¬agent_tool_names.isEmpty then
        cleanUpToolsFromAgent supportsUnreg unregFail agent_tool_names st.agentRegistry
      else ([], [], st.agentRegistry)
    let res : JVal := .obj
      ([("message", .str s!"Disconnected from MCP server '{cid}'"),
        ("connection_id", .str cid),
        ("was_active", .bool config.is_active),
        ("catalog_tools_remain_discoverable", .bool (!catalog_tool_names.isEmpty))] ++
       (if ¬cleaned.isEmpty then
          [("cleaned_tools", .arr (cleaned.map JVal.str)),
           ("cleaned_tools_count", .num cleaned.length)]
        else []) ++
       (if ¬failed.isEmpty then
          [("failed_to_clean_tools", .arr (failed.map JVal.str)),
           ("failed_tools_count", .num failed.length)]
        else []) ++
       (if ¬agent_tool_names.isEmpty ∧ ¬agentSupplied then
          [("loaded_tools_info", .str
            (s!"Note: No agent provided, {agent_tool_names.length} agent-registered tools could not be cleaned up: " ++
             String.intercalate ", " agent_tool_names))]
        else []))
    (⟨"success", [.text s!"Disconnected from MCP server '{cid}'", .json res]⟩,
     { st with connections := conns, agentRegistry := reg })

/-- _escape_single_quotes. -/
def escapeSingleQuotes (s : String) : String :=
  (s.replace "\\" "\\\\").replace "'" "\\'"

/-- _register_mcp_tools_in_catalog: one register_entry per tool with a
truthy name, with the MCP pathway templates. -/
def registerMcpToolsInCatalog (connection_id : String) (tools : List RemoteTool)
    (now : Int) (c : CatalogState) : CatalogState :=
  if tools.isEmpty then c
  else
    let ecid := escapeSingleQuotes connection_id
    tools.foldl
      (fun acc t =>
        if t.tool_name = "" then acc
        else
          let etn := escapeSingleQuotes t.tool_name
          registerEntry acc t.tool_name
            (if t.description = "" then s!"MCP tool from connection '{connection_id}'"
             else t.description)
            (some t.input_schema)
            s!"mcp:{connection_id}"
            none (some "mcp_tools") none
            (some (s!"mcp_client(action='load_tools', connection_id='{ecid}', " ++
              "load_into_agent_registry=False)"))
            (some (s!"mcp_client(action='call_tool', connection_id='{ecid}', " ++
              s!"tool_name='{etn}', tool_args=\x7b...\x7d)"))
            (some s!"mcp_client(action='disconnect', connection_id='{ecid}')")
            now)
      c

/-- Dict-registry insertion for agent.tool_registry.register_tool: the
name set gains the tool name (re-registering an existing name replaces
the stored tool, leaving the name set unchanged). -/
def registerInAgent (reg : List String) (n : String) : List String :=
  if reg.contains n then reg else reg ++ [n]

/-- Names appended but deduplicated against the existing list, skipping
empty names: the connection-state update loops of _load_tools_to_agent
(the membership test runs against the evolving list, mirroring the
catalog_existing and registry_existing sets). -/
def dedupAppend (base : List String) : List String → List String
  | [] => base
  | n :: ns =>
    dedupAppend (if n ≠ "" ∧ ¬base.contains n then base ++ [n] else base) ns

/-- _load_tools_to_agent. listRes is the outcome of list_tools_sync;
regFail gives the exception message when register_tool raises for a
given tool name. -/
def loadToolsToAgent (p : MCPParams) (listRes : Except String (List RemoteTool))
    (regFail : String → Option String) (now : Int) (st : SysState) :
    Envelope × SysState :=
  if p.load_into_agent_registry ∧ ¬p.agentSupplied then
    (errEnv "agent instance is required when load_into_agent_registry=True", st)
  else
    match validateConnection p.connection_id true st.connections with
    | .error e => (e, st)
    | .ok (cid, config) =>
      if p.load_into_agent_registry ∧ ¬p.agentHasRegistry then
        (errEnv "Agent does not have a tool registry. Make sure you're using a compatible Strands agent.", st)
      else
        match listRes with
        | .error e => (errEnv s!"Failed to load tools: {e}", st)
        | .ok tools =>
          let catalog := registerMcpToolsInCatalog cid tools now st.catalog
          let catalog_tool_names := (tools.map RemoteTool.tool_name).filter (fun n => n ≠ "")
          let loaded_into_agent :=
            if p.load_into_agent_registry then
              (tools.filter (fun t => (regFail t.tool_name).isNone)).map RemoteTool.tool_name
            else []
          let skipped : List JVal :=
            if p.load_into_agent_registry then
              (tools.filterMap (fun t =>
                match regFail t.tool_name with
                | some e => some (.obj [("name", .str t.tool_name), ("error", .str e)])
                | none => none))
            else []
          let reg := loaded_into_agent.foldl registerInAgent st.agentRegistry
          let info : ConnectionInfo :=
            { config with
              loaded_tool_names := dedupAppend config.loaded_tool_names catalog_tool_names
              agent_loaded_tool_names :=
                dedupAppend config.agent_loaded_tool_names loaded_into_agent }
          let res : JVal := .obj
            ([("message", .str
                (s!"Catalog registered {catalog_tool_names.length} tools from MCP server '{cid}'" ++
                 (if p.load_into_agent_registry then
                    s!"; loaded {loaded_into_agent.length} into agent registry"
                  else ""))),
              ("connection_id", .str cid),
              ("catalog_tools", .arr (catalog_tool_names.map JVal.str)),
              ("tool_count", .num catalog_tool_names.length),
              ("total_catalog_tools", .num info.loaded_tool_names.length),
              ("agent_registry_loaded_tools", .arr (loaded_into_agent.map JVal.str)),
              ("agent_registry_tool_count", .num loaded_into_agent.length),
              ("total_agent_registry_tools", .num info.agent_loaded_tool_names.length),
              ("load_into_agent_registry", .bool p.load_into_agent_registry)] ++
             (if ¬skipped.isEmpty then [("skipped_tools", .arr skipped)] else []))
          (⟨"success",
            [.text
              (s!"Registered {catalog_tool_names.length} MCP tools in catalog for '{cid}'" ++
               (if p.load_into_agent_registry then
                  s!" and loaded {loaded_into_agent.length} into active agent registry"
                else " (agent registry unchanged)")),
             .json res]⟩,
           { connections := insertConn st.connections cid info
             catalog := catalog
             agentRegistry := reg })

/-- MCPTool.stream, the wrapped-tool execution path: connection and
liveness checks yield ToolResult-shaped errors without touching the
registry; a genuine invocation exception flips is_active to false and
records last_error on the owning connection. -/
def mcpToolStream (connection_id tool_name toolUseId : String)
    (callRes : Except String ToolResult) (st : SysState) : ToolResult × SysState :=
  match lookupConn st.connections connection_id with
  | none =>
    (⟨toolUseId, "error", [.text s!"Connection '{connection_id}' not found"]⟩, st)
  | some config =>
    if ¬config.is_active then
      (⟨toolUseId, "error", [.text s!"Connection '{connection_id}' is not active"]⟩, st)
    else
      match callRes with
      | .ok r => (r, st)
      | .error e =>
        (⟨toolUseId, "error",
          [.text s!"Failed to execute tool '{tool_name}': {e}"]⟩,
         { st with connections := (insertConn st.connections connection_id
             { config with is_active := false, last_error := some e }) })

/-- The SDK call outcomes an mcp_client invocation can observe, one per
action that reaches the SDK, plus the agent-side failure oracles and the
clock. -/
structure MCPOracles where
  probe : Except String (List RemoteTool) := .error ""
  listToolsRes : Except String (List RemoteTool) := .error ""
  callRes : Except String ToolResult := .error ""
  promptsRes : Except String JVal := .error ""
  promptRes : Except String JVal := .error ""
  resourcesRes : Except String JVal := .error ""
  templatesRes : Except String JVal := .error ""
  resourceRes : Except String JVal := .error ""
  loadListRes : Except String (List RemoteTool) := .error ""
  regFail : String → Option String := fun _ => none
  unregFail : String → Option String := fun _ => none
  agentSupportsUnreg : Bool := true
  now : Int := 0

/-- The action dispatch of mcp_client (the if/elif chain over the action
string), over already merged parameters. The surrounding try/except and
the connect-parameter merging change no envelope an action returns. -/
def mcpClientDispatch (action : String) (p : MCPParams) (o : MCPOracles)
    (st : SysState) : MCPRet × SysState :=
  if action = "connect" then
    let r := connectToServer p o.probe o.now st
    (.env r.1, r.2)
  else if action = "disconnect" then
    let r := disconnectFromServer p.connection_id p.agentSupplied o.agentSupportsUnreg
      o.unregFail st
    (.env r.1, r.2)
  else if action = "list_connections" then
    let r := listActiveConnections st
    (.env r.1, r.2)
  else if action = "list_tools" then
    let r := listServerTools p.connection_id o.listToolsRes st
    (.env r.1, r.2)
  else if action = "call_tool" then
    callServerTool p.connection_id p.tool_name o.callRes st
  else if action = "load_tools" then
    let r := loadToolsToAgent p o.loadListRes o.regFail o.now st
    (.env r.1, r.2)
  else if action = "list_prompts" then
    let r := listServerPrompts p.connection_id o.promptsRes st
    (.env r.1, r.2)
  else if action = "get_prompt" then
    let r := getServerPrompt p.connection_id p.prompt_name p.prompt_args o.promptRes st
    (.env r.1, r.2)
  else if action = "list_resources" then
    let r := listServerResources p.connection_id o.resourcesRes st
    (.env r.1, r.2)
  else if action = "list_resource_templates" then
    let r := listServerResourceTemplates p.connection_id o.templatesRes st
    (.env r.1, r.2)
  else if action = "read_resource" then
    let r := readServerResource p.connection_id p.resource_uri o.resourceRes st
    (.env r.1, r.2)
  else
    (.env (errEnv ("Unknown action: " ++ action ++ ". Available actions: " ++
      "connect, disconnect, list_connections, list_tools, call_tool, load_tools, " ++
      "list_prompts, get_prompt, list_resources, list_resource_templates, read_resource")), st)

/-- One operation of the connection manager: an mcp_client action, or a
wrapped-tool execution through MCPTool.stream. -/
inductive SysOp where
  | act (action : String) (p : MCPParams) (o : MCPOracles)
  | streamExec (connection_id tool_name toolUseId : String)
      (callRes : Except String ToolResult)

/-- State transition of one operation. -/
def applySysOp : SysOp → SysState → SysState
  | .act action p o, st => (mcpClientDispatch action p o st).2
  | .streamExec cid tn uid res, st => (mcpToolStream cid tn uid res st).2

/-- One entry of the invocations argument of the batch tool: the name
key (absent name later raises in getattr) and the arguments dict. -/
structure BatchInvocation where
  name : Option String
  arguments : List (String × JVal)

/-- The agent as the batch tool sees it: whether a usable tool attribute
exists, and the callable tools by name; running a tool either returns a
value or raises with a message. -/
structure BatchAgent where
  hasTool : Bool
  lookupTool : String → Option (List (String × JVal) → Except String JVal)

/-- Python str truncation of a long error message in the batch summary
(over 100 characters: first 97 plus an ellipsis). -/
def truncErr (e : String) : String :=
  if e.length > 100 then e.take 97 ++ "..." else e

/-- The per-invocation loop of the batch tool, in submission order. A
.error return models an exception escaping the loop to the outer
handler (getattr over a missing name attribute). -/
def batchLoop (agent : BatchAgent) : List BatchInvocation → Except String (List Entry)
  | [] => .ok []
  | inv :: rest =>
    match inv.name with
    | none => .error "attribute name must be string, not 'NoneType'"
    | some n =>
      let r : Entry :=
        match agent.lookupTool n with
        | some f =>
          match f inv.arguments with
          | .ok v => [("name", .str n), ("status", .str "success"), ("result", v)]
          | .error e =>
            [("name", .str n), ("status", .str "error"), ("error", .str e),
             ("traceback", .str "")]
        | none =>
          [("name", .str n), ("status", .str "error"),
           ("error", .str s!"Tool '{n}' not found in agent")]
      (batchLoop agent rest).map (fun rs => r :: rs)

/-- Whether a batch result entry carries the given status string. -/
def resultStatusIs (r : Entry) (s : String) : Bool :=
  match dget r "status" with
  | some (.str x) => x = s
  | _ => false

/-- The name field of a batch result entry, for the summary lines. -/
def resultNameText (r : Entry) : String :=
  match dget r "name" with
  | some (.str s) => s
  | _ => ""

/-- The error field of a batch result entry. -/
def resultErrText (r : Entry) : String :=
  match dget r "error" with
  | some (.str s) => s
  | _ => ""

/-- The batch tool. The traceback text of the outer handler is modelled
by the exception message alone. Note the overall status may be
"partial_success" or "failed", beyond the success/error pair. -/
def batchRun (agent : BatchAgent) (invocations : List BatchInvocation) : Envelope :=
  if ¬agent.hasTool then
    errEnv "Error in batch tool: Agent does not have a valid 'tool' attribute."
  else
    match batchLoop agent invocations with
    | .error e => errEnv s!"Error in batch tool: {e}"
    | .ok results =>
      let successful := results.filter (fun r => resultStatusIs r "success")
      let failed := results.filter (fun r => resultStatusIs r "error")
      let batch_status :=
        if failed.length = 0 then "success"
        else if successful.length > 0 then "partial_success"
        else "failed"
      let header := s!"Batch execution completed: {successful.length}/{results.length} succeeded"
      let succLines :=
        if ¬successful.isEmpty then
          ["\n✅ Successful:"] ++ successful.map (fun r => s!"  • {resultNameText r}")
        else []
      let failLines :=
        if ¬failed.isEmpty then
          ["\n❌ Failed:"] ++
            failed.map (fun r => s!"  • {resultNameText r}: {truncErr (resultErrText r)}")
        else []
      let summary := String.intercalate "\n" ([header] ++ succLines ++ failLines)
      ⟨batch_status,
       [.text summary,
        .json (.obj
          [("batch_summary", .obj
             [("total_tools", .num results.length),
              ("successful", .num successful.length),
              ("failed", .num failed.length),
              ("batch_status", .str batch_status)]),
           ("successful_results", .arr (successful.map JVal.obj)),
           ("failed_results", .arr (failed.map JVal.obj)),
           ("all_results", .arr (results.map JVal.obj))])]⟩

/-- The names of the all_results entries of a batch run, in the order
collected. -/
def batchResultNames (agent : BatchAgent) (invocations : List BatchInvocation) :
    Option (List String) :=
  match batchLoop agent invocations with
  | .ok results => some (results.map resultNameText)
  | .error _ => none

/-- The worker bound of the tool_catalog parallel execute path
(ThreadPoolExecutor(max_workers=min(len(resolved), 4))). -/
def toolCatalogPoolWorkers (n : Nat) : Nat := min n 4

/-- ToolCatalogManager.get_tool_details restricted to the persisted
catalog (the discovery-manifest fallbacks yield no path-bearing entries
needed below and are modelled by the none case of the caller). -/
def getToolDetailsCatalog (c : CatalogState) (tool_name : String) : Option Entry :=
  if tool_name = "" then none
  else
    match c.tools.find? (fun e => entryHasName e tool_name) with
    | some e =>
      some
        (dsetdefault
          (dsetdefault
            (dsetdefault
              (dsetdefault
                (dsetdefault
                  (dsetdefault e "execute_pathway"
                    (optStr (defaultExecutePathway tool_name none)))
                  "unload_pathway" (.str s!"unload_tool(name='{tool_name}')"))
                "load_pathway" (.str "already_loaded"))
              "path" .null)
            "input_schema" .null)
          "description" (.str ""))
    | none => none

/-- The _execute_one adapter of tool_catalog: load, invoke, unload, and
report either a result or an error per tool. The transient
load/unload of the tool module is absorbed into the execution oracle. -/
def executeOne (agentExec : String → List (String × JVal) → Except String JVal)
    (name : String) (arguments : List (String × JVal)) : Entry :=
  match agentExec name arguments with
  | .ok r => [("name", .str name), ("result", r)]
  | .error e => [("name", .str name), ("error", .str e)]

/-- The parallel fan-out of the tool_catalog execute action: each
resolved invocation is executed independently, and results are appended
as futures complete; completionOrder is the order in which as_completed
yields them, a permutation of the submission indices. -/
def toolCatalogExecuteParallel (agentExec : String → List (String × JVal) → Except String JVal)
    (resolved : List (String × List (String × JVal))) (completionOrder : List Nat) :
    List Entry :=
  completionOrder.filterMap
    (fun i => (resolved.get? i).map (fun r => executeOne agentExec r.1 r.2))

/-- The path-resolution loop of the tool_catalog execute action: every
invocation must name a catalog tool with a truthy path, and the first
miss aborts the whole call naming the failing tool. -/
def resolveInvocations (c : CatalogState) :
    List (String × List (String × JVal)) →
      Except String (List (String × List (String × JVal)))
  | [] => .ok []
  | inv :: rest =>
    match getToolDetailsCatalog c inv.1 with
    | some details =>
      (match dget details "path" with
        | some (.str p) =>
          if p ≠ "" then (resolveInvocations c rest).map (fun rs => (inv.1, inv.2) :: rs)
          else .error s!"No path found for tool: {inv.1}"
        | _ => .error s!"No path found for tool: {inv.1}")
    | none => .error s!"No path found for tool: {inv.1}"

/-- The execute action of tool_catalog: build invocations (a truthy
tools list wins over the single name form), resolve each name to a
catalog path, then run directly (one tool) or through the bounded pool
(several). -/
def toolCatalogExecute (c : CatalogState)
    (agentExec : String → List (String × JVal) → Except String JVal)
    (name : Option String) (arguments : Option (List (String × JVal)))
    (tools : Option (List (String × List (String × JVal))))
    (completionOrder : List Nat) : Envelope :=
  let byName : Option (List (String × List (String × JVal))) :=
    match truthyStr name with
    | some n => some [(n, arguments.getD [])]
    | none => none
  let invocations : Option (List (String × List (String × JVal))) :=
    match tools with
    | some ts => if ts.isEmpty then byName else some ts
    | none => byName
  match invocations with
  | none => errEnv "execute requires name or tools list"
  | some invs =>
    match resolveInvocations c invs with
    | .error e => errEnv e
    | .ok resolved =>
      match resolved with
      | [r] =>
        let one := executeOne agentExec r.1 r.2
        (match dget one "error" with
          | some (.str e) => errEnv s!"{r.1}: {e}"
          | _ =>
            ⟨"success", [.json ((dget one "result").getD .null)]⟩)
      | _ =>
        ⟨"success",
         [.json (.arr ((toolCatalogExecuteParallel agentExec resolved completionOrder).map
           JVal.obj))]⟩

/-- Lookup over a dict append: the left dict wins. -/
theorem dget_append (a b : Entry) (k : String) :
    dget (a ++ b) k = match dget a k with
      | some v => some v
      | none => dget b k := by
  induction a with
  | nil => simp [dget]
  | cons p rest ih =>
    rcases p with ⟨k0, v0⟩
    by_cases h : k0 = k
    · simp [dget, h]
    · simpa [dget, h] using ih

/-- Lookup over the value-overwriting map of dictUpdate. -/
theorem dget_map_upd (old new : Entry) (k : String) :
    dget (old.map (fun p => (p.1, (dget new p.1).getD p.2))) k
      = (dget old k).map (fun v => (dget new k).getD v) := by
  induction old with
  | nil => simp [dget]
  | cons p rest ih =>
    rcases p with ⟨k0, v0⟩
    by_cases h : k0 = k
    · simp [dget, h]
    · simpa [dget, h] using ih

/-- Lookup over a filter whose predicate depends on the key only. -/
theorem dget_filter_key (b : Entry) (q : String → Bool) (k : String) :
    dget (b.filter (fun p => q p.1)) k = if q k then dget b k else none := by
  induction b with
  | nil => simp [dget]
  | cons p rest ih =>
    rcases p with ⟨k1, v1⟩
    by_cases hq : q k1
    · by_cases hk : k1 = k
      · subst hk; simp [dget, List.filter, hq]
      · simp [dget, List.filter, hq, hk, ih]
    · by_cases hk : k1 = k
      · subst hk
        simp [List.filter, hq, ih]
      · simp [dget, List.filter, hq, hk, ih]

/-- The shallow-merge law of dictUpdate: keys of the new dict overwrite,
keys absent from it are retained from the old dict. -/
theorem dget_dictUpdate (old new : Entry) (k : String) :
    dget (dictUpdate old new) k = match dget new k with
      | some v => some v
      | none => dget old k := by
  show dget (old.map (fun p => (p.1, (dget new p.1).getD p.2)) ++
      new.filter (fun p => (dget old p.1).isNone)) k = _
  rw [dget_append, dget_map_upd, dget_filter_key new (fun s => (dget old s).isNone) k]
  cases h1 : dget old k <;> cases h2 : dget new k <;> simp [h1, h2]

/-- A dictUpdate by an entry with the name n carries the name n. -/
theorem entryHasName_dictUpdate (item e : Entry) (n : String)
    (he : entryHasName e n = true) : entryHasName (dictUpdate item e) n = true := by
  unfold entryHasName at he ⊢
  rw [dget_dictUpdate]
  cases h2 : dget e "name" with
  | none => rw [h2] at he; exact absurd he (by simp)
  | some v => rw [h2] at he; simpa [h2] using he

/-- Distinct names never share an entry (the name value is one string). -/
theorem entryHasName_unique {x : Entry} {m n : String}
    (hm : entryHasName x m = true) (hn : entryHasName x n = true) : m = n := by
  unfold entryHasName at hm hn
  cases h : dget x "name" with
  | none => rw [h] at hm; exact absurd hm (by simp)
  | some v =>
    rw [h] at hm hn
    cases v <;> simp_all

/-- Unfolding countName over a cons cell. -/
theorem countName_cons (x : Entry) (ts : List Entry) (n : String) :
    countName (x :: ts) n = (if entryHasName x n then 1 else 0) + countName ts n := by
  by_cases hm : entryHasName x n <;>
    simp [countName, List.filter, hm, Nat.add_comm]

/-- A list with no entry named n has countName zero, and conversely. -/
theorem countName_eq_zero_iff (ts : List Entry) (n : String) :
    countName ts n = 0 ↔ ∀ x ∈ ts, entryHasName x n = false := by
  induction ts with
  | nil => simp [countName]
  | cons x rest ih =>
    rw [countName_cons]
    by_cases hm : entryHasName x n <;> simp [hm, ih]

/-- Upserting an entry named n into a list holding at most one entry of
that name leaves exactly one entry of that name. -/
theorem countName_upsert (ts : List Entry) (n : String) (e : Entry)
    (he : entryHasName e n = true) (h : countName ts n ≤ 1) :
    countName (upsertByName ts n e) n = 1 := by
  induction ts with
  | nil => simp [upsertByName, countName, List.filter, he]
  | cons item rest ih =>
    rw [countName_cons] at h
    by_cases hm : entryHasName item n
    · rw [hm, if_pos rfl] at h
      have hrest : countName rest n = 0 := by omega
      rw [upsertByName, if_pos hm, countName_cons,
        entryHasName_dictUpdate item e n he, if_pos rfl, hrest]
    · rw [if_neg (by simp [hm])] at h
      rw [upsertByName, if_neg (by simp [hm]), countName_cons,
        if_neg (by simp [hm]), ih (by omega)]

/-- After an upsert of an entry carrying a description, every entry of
that name carries exactly that description (there is at most one). -/
theorem upsert_desc (ts : List Entry) (n : String) (e : Entry)
    (he : entryHasName e n = true) (hd : (dget e "description").isSome)
    (h : countName ts n ≤ 1) :
    ∀ x ∈ upsertByName ts n e, entryHasName x n = true →
      dget x "description" = dget e "description" := by
  induction ts with
  | nil =>
    intro x hx _
    simp [upsertByName] at hx
    subst hx; rfl
  | cons item rest ih =>
    intro x hx hxn
    by_cases hm : entryHasName item n
    · simp [upsertByName, hm] at hx
      rcases hx with hx | hx
      · subst hx
        rw [dget_dictUpdate]
        cases hde : dget e "description" with
        | none => rw [hde] at hd; exact absurd hd (by simp)
        | some v => simp
      · have hcnt : countName (item :: rest) n = 1 + countName rest n := by
          simp [countName, List.filter, hm, Nat.add_comm]
        have hrest : countName rest n = 0 := by omega
        have hall := (countName_eq_zero_iff rest n).mp hrest
        exact absurd hxn (by simp [hall x hx])
    · simp [upsertByName, hm] at hx
      rcases hx with hx | hx
      · subst hx; exact absurd hxn (by simp [hm])
      · have hcnt : countName (item :: rest) n = countName rest n := by
          simp [countName, List.filter, hm]
        exact ih (by omega) x hx hxn

/-- The entry built by register_entry is named by its name argument. -/
theorem entryHasName_registerEntryDict (name description : String)
    (is : Option JVal) (origin : String)
    (ss cat p lp ep up : Option String) (now : Int) :
    entryHasName (registerEntryDict name description is origin ss cat p lp ep up now)
      name = true := by
  simp [entryHasName, registerEntryDict, dget]

/-- The truthy name of the entry built by register_entry. -/
theorem entryName_registerEntryDict (name description : String)
    (is : Option JVal) (origin : String)
    (ss cat p lp ep up : Option String) (now : Int) :
    entryName (registerEntryDict name description is origin ss cat p lp ep up now)
      = if name = "" then none else some name := by
  simp [entryName, registerEntryDict, dget]

/-- The tools list written by register_entry for a truthy name. -/
theorem registerEntry_tools (c : CatalogState) (name description : String)
    (is : Option JVal) (origin : String)
    (ss cat p lp ep up : Option String) (now : Int) (h : name ≠ "") :
    (registerEntry c name description is origin ss cat p lp ep up now).tools
      = upsertByName c.tools name
          (registerEntryDict name description is origin ss cat p lp ep up now) := by
  simp [registerEntry, upsertEntry, entryName_registerEntryDict, h, writeCatalog]

/-- An upsert adds an entry of the upserted name. -/
theorem upsert_mem_new (ts : List Entry) (n : String) (e : Entry)
    (he : entryHasName e n = true) :
    ∃ x ∈ upsertByName ts n e, entryHasName x n = true := by
  induction ts with
  | nil => exact ⟨e, by simp [upsertByName], he⟩
  | cons item rest ih =>
    by_cases hm : entryHasName item n
    · exact ⟨dictUpdate item e, by simp [upsertByName, hm],
        entryHasName_dictUpdate item e n he⟩
    · rcases ih with ⟨x, hx, hxn⟩
      exact ⟨x, by simp [upsertByName, hm, hx], hxn⟩

/-- An upsert never loses a name already present in the list. -/
theorem upsert_mem_old (ts : List Entry) (n : String) (e : Entry)
    (he : entryHasName e n = true) (m : String)
    (hm : ∃ x ∈ ts, entryHasName x m = true) :
    ∃ x ∈ upsertByName ts n e, entryHasName x m = true := by
  induction ts with
  | nil => simp at hm
  | cons item rest ih =>
    rcases hm with ⟨x, hx, hxm⟩
    by_cases hit : entryHasName item n
    · rcases List.mem_cons.mp hx with hx | hx
      · subst hx
        have : m = n := entryHasName_unique hxm hit
        subst this
        exact ⟨dictUpdate x e, by simp [upsertByName, hit],
          entryHasName_dictUpdate x e m he⟩
      · exact ⟨x, by simp [upsertByName, hit, hx], hxm⟩
    · rcases List.mem_cons.mp hx with hx | hx
      · subst hx
        exact ⟨x, by simp [upsertByName, hit], hxm⟩
      · rcases ih ⟨x, hx, hxm⟩ with ⟨y, hy, hym⟩
        exact ⟨y, by simp [upsertByName, hit, hy], hym⟩

/-- Names present in the catalog survive registerMcpToolsInCatalog, and
every truthy tool name of the batch ends up present. -/
theorem registerMcpToolsInCatalog_names (cid : String) (tools : List RemoteTool)
    (now : Int) (c : CatalogState) :
    (∀ m, (∃ x ∈ c.tools, entryHasName x m = true) →
      ∃ x ∈ (registerMcpToolsInCatalog cid tools now c).tools, entryHasName x m = true) ∧
    (∀ t ∈ tools, t.tool_name ≠ "" →
      ∃ x ∈ (registerMcpToolsInCatalog cid tools now c).tools,
        entryHasName x t.tool_name = true) := by
  rw [registerMcpToolsInCatalog]
  by_cases hemp : tools.isEmpty
  · rw [if_pos hemp]
    refine ⟨fun m hm => hm, fun t ht hne => ?_⟩
    rcases tools with _ | ⟨a, rest⟩
    · simp at ht
    · simp [List.isEmpty] at hemp
  · rw [if_neg hemp]
    clear hemp
    induction tools generalizing c with
    | nil => exact ⟨fun m hm => by simpa using hm, fun t ht => by simp at ht⟩
    | cons a rest ih =>
      constructor
      · intro m hm
        simp only [List.foldl_cons]
        by_cases ha : a.tool_name = ""
        · rw [if_pos ha]
          exact (ih c).1 m hm
        · rw [if_neg ha]
          refine (ih _).1 m ?_
          rw [registerEntry_tools _ _ _ _ _ _ _ _ _ _ _ _ ha]
          exact upsert_mem_old _ _ _ (entryHasName_registerEntryDict _ _ _ _ _ _ _ _ _ _ _) m hm
      · intro t ht hne
        simp only [List.foldl_cons]
        rcases List.mem_cons.mp ht with hta | hta
        · subst hta
          rw [if_neg hne]
          refine (ih _).1 t.tool_name ?_
          rw [registerEntry_tools _ _ _ _ _ _ _ _ _ _ _ _ hne]
          exact upsert_mem_new _ _ _ (entryHasName_registerEntryDict _ _ _ _ _ _ _ _ _ _ _)
        · by_cases ha : a.tool_name = ""
          · rw [if_pos ha]
            exact (ih c).2 t hta hne
          · rw [if_neg ha]
            exact (ih _).2 t hta hne

/-- Lookup after a dict assignment over the connection table. -/
theorem lookupConn_insertConn (conns : List (String × ConnectionInfo))
    (k : String) (v : ConnectionInfo) (cid : String) :
    lookupConn (insertConn conns k v) cid
      = if k = cid then some v else lookupConn conns cid := by
  induction conns with
  | nil => by_cases hc : k = cid <;> simp [insertConn, lookupConn, hc]
  | cons p rest ih =>
    rcases p with ⟨k0, v0⟩
    by_cases h0 : k0 = k
    · subst h0
      rw [insertConn, if_pos rfl]
      by_cases hc : k0 = cid
      · subst hc; simp [lookupConn]
      · rw [lookupConn, if_neg hc, lookupConn, if_neg hc, if_neg hc]
    · rw [insertConn, if_neg h0]
      by_cases hc : k0 = cid
      · subst hc
        rw [lookupConn, if_pos rfl, lookupConn, if_pos rfl,
          if_neg (fun he => h0 he.symm)]
      · rw [lookupConn, if_neg hc, ih, lookupConn, if_neg hc]

/-- Lookup of a different key after a dict deletion. -/
theorem lookupConn_removeConn_ne (conns : List (String × ConnectionInfo))
    (k cid : String) (h : cid ≠ k) :
    lookupConn (removeConn conns k) cid = lookupConn conns cid := by
  induction conns with
  | nil => simp [removeConn]
  | cons p rest ih =>
    rcases p with ⟨k0, v0⟩
    by_cases h0 : k0 = k
    · subst h0
      have hk : ¬k0 = cid := fun he => h (he.symm.trans rfl)
      rw [removeConn, if_pos rfl, lookupConn, if_neg hk]
    · by_cases hc : k0 = cid
      · subst hc
        rw [removeConn, if_neg h0, lookupConn, if_pos rfl, lookupConn, if_pos rfl]
      · rw [removeConn, if_neg h0, lookupConn, if_neg hc, ih, lookupConn, if_neg hc]

/-- Lookup of an absent key. -/
theorem lookupConn_eq_none (conns : List (String × ConnectionInfo)) (cid : String)
    (h : cid ∉ conns.map Prod.fst) : lookupConn conns cid = none := by
  induction conns with
  | nil => rfl
  | cons p rest ih =>
    rcases p with ⟨k0, v0⟩
    simp only [List.map_cons, List.mem_cons] at h
    push_neg at h
    have hk : ¬k0 = cid := fun he => h.1 he.symm
    rw [lookupConn, if_neg hk]
    exact ih h.2

/-- Lookup of the deleted key after a dict deletion, on a duplicate-free
table. -/
theorem lookupConn_removeConn_self (conns : List (String × ConnectionInfo))
    (k : String) (hnd : (conns.map Prod.fst).Nodup) :
    lookupConn (removeConn conns k) k = none := by
  induction conns with
  | nil => rfl
  | cons p rest ih =>
    rcases p with ⟨k0, v0⟩
    simp only [List.map_cons, List.nodup_cons] at hnd
    by_cases h0 : k0 = k
    · subst h0
      rw [removeConn, if_pos rfl]
      exact lookupConn_eq_none rest k0 hnd.1
    · rw [removeConn, if_neg h0, lookupConn, if_neg h0]
      exact ih hnd.2

/-- Members of the table after a dict assignment. -/
theorem mem_insertConn (conns : List (String × ConnectionInfo))
    (k : String) (v : ConnectionInfo) (pr : String × ConnectionInfo)
    (h : pr ∈ insertConn conns k v) : pr = (k, v) ∨ pr ∈ conns := by
  induction conns with
  | nil => simpa [insertConn] using h
  | cons p rest ih =>
    rcases p with ⟨k0, v0⟩
    by_cases h0 : k0 = k
    · rw [insertConn, if_pos h0] at h
      rcases List.mem_cons.mp h with h | h
      · exact Or.inl h
      · exact Or.inr (List.mem_cons_of_mem _ h)
    · rw [insertConn, if_neg h0] at h
      rcases List.mem_cons.mp h with h | h
      · exact Or.inr (by simp [h])
      · rcases ih h with h | h
        · exact Or.inl h
        · exact Or.inr (List.mem_cons_of_mem _ h)

/-- Members of the table after a dict deletion. -/
theorem mem_removeConn (conns : List (String × ConnectionInfo))
    (k : String) (pr : String × ConnectionInfo)
    (h : pr ∈ removeConn conns k) : pr ∈ conns := by
  induction conns with
  | nil => simp [removeConn] at h
  | cons p rest ih =>
    rcases p with ⟨k0, v0⟩
    by_cases h0 : k0 = k
    · rw [removeConn, if_pos h0] at h
      exact List.mem_cons_of_mem _ h
    · rw [removeConn, if_neg h0] at h
      rcases List.mem_cons.mp h with h | h
      · simp [h]
      · exact List.mem_cons_of_mem _ (ih h)

/-- A successful lookup is a member of the table. -/
theorem lookupConn_mem (conns : List (String × ConnectionInfo)) (cid : String)
    (info : ConnectionInfo) (h : lookupConn conns cid = some info) :
    (cid, info) ∈ conns := by
  induction conns with
  | nil => simp [lookupConn] at h
  | cons p rest ih =>
    rcases p with ⟨k0, v0⟩
    by_cases h0 : k0 = cid
    · subst h0
      rw [lookupConn, if_pos rfl] at h
      simp [Option.some_inj.mp h]
    · rw [lookupConn, if_neg h0] at h
      exact List.mem_cons_of_mem _ (ih h)

/-- The base list survives dedupAppend. -/
theorem mem_dedupAppend_base {x : String} (base : List String) (ns : List String)
    (h : x ∈ base) : x ∈ dedupAppend base ns := by
  induction ns generalizing base with
  | nil => exact h
  | cons n rest ih =>
    rw [dedupAppend]
    split
    · exact ih _ (List.mem_append_left _ h)
    · exact ih _ h

/-- A truthy appended name is present after dedupAppend. -/
theorem mem_dedupAppend_of_mem {n : String} (base : List String) (ns : List String)
    (h : n ∈ ns) (hne : n ≠ "") : n ∈ dedupAppend base ns := by
  induction ns generalizing base with
  | nil => simp at h
  | cons m rest ih =>
    rcases List.mem_cons.mp h with h | h
    · subst h
      rw [dedupAppend]
      by_cases hc : n ≠ "" ∧ ¬base.contains n
      · rw [if_pos hc]
        exact mem_dedupAppend_base _ _ (List.mem_append_right _ (by simp))
      · rw [if_neg hc]
        push_neg at hc
        have : base.contains n := hc hne
        exact mem_dedupAppend_base _ _ (by simpa using this)
    · rw [dedupAppend]
      split
      · exact ih _ h
      · exact ih _ h

/-- Every member after dedupAppend was in the base or is a truthy
appended name. -/
theorem mem_dedupAppend_cases {x : String} (base : List String) (ns : List String)
    (h : x ∈ dedupAppend base ns) : x ∈ base ∨ (x ∈ ns ∧ x ≠ "") := by
  induction ns generalizing base with
  | nil => exact Or.inl h
  | cons n rest ih =>
    rw [dedupAppend] at h
    by_cases hc : n ≠ "" ∧ ¬base.contains n
    · rw [if_pos hc] at h
      rcases ih _ h with h | h
      · rcases List.mem_append.mp h with h | h
        · exact Or.inl h
        · simp only [List.mem_singleton] at h
          subst h
          exact Or.inr ⟨by simp, hc.1⟩
      · exact Or.inr ⟨List.mem_cons_of_mem _ h.1, h.2⟩
    · rw [if_neg hc] at h
      rcases ih _ h with h | h
      · exact Or.inl h
      · exact Or.inr ⟨List.mem_cons_of_mem _ h.1, h.2⟩

/-- What a successful validation implies about the table. -/
theorem validateConnection_ok (connection_id : Option String) (check_active : Bool)
    (conns : List (String × ConnectionInfo)) (cid : String) (config : ConnectionInfo)
    (h : validateConnection connection_id check_active conns = .ok (cid, config)) :
    truthyStr connection_id = some cid ∧ lookupConn conns cid = some config ∧
      (check_active = true → config.is_active = true) := by
  unfold validateConnection at h
  cases ht : truthyStr connection_id with
  | none => simp [ht] at h
  | some c =>
    cases hl : lookupConn conns c with
    | none => simp [ht, hl] at h
    | some cfg =>
      by_cases hact : check_active = true ∧ ¬cfg.is_active = true
      · simp [ht, hl, hact] at h
      · simp only [ht, hl, if_neg hact] at h
        simp only [Except.ok.injEq, Prod.mk.injEq] at h
        rcases h with ⟨h1, h2⟩
        subst h1; subst h2
        refine ⟨rfl, hl, fun hca => ?_⟩
        push_neg at hact
        exact hact hca

/-- Validation failures are error envelopes. -/
theorem validateConnection_error_status (connection_id : Option String)
    (check_active : Bool) (conns : List (String × ConnectionInfo)) (e : Envelope)
    (h : validateConnection connection_id check_active conns = .error e) :
    e.status = "error" := by
  unfold validateConnection at h
  split at h
  · cases h; rfl
  · split at h
    · cases h; rfl
    · split at h
      · cases h; rfl
      · cases h

/-- Status of every connectTry envelope. -/
theorem connectTry_status (cid transport : String) (p : MCPParams)
    (probe : Except String (List RemoteTool)) (now : Int) (st : SysState) :
    (connectTry cid transport p probe now st).1.status = "success" ∨
      (connectTry cid transport p probe now st).1.status = "error" := by
  unfold connectTry
  cases h1 : createTransportCallable transport p with
  | error e => simp [errEnv]
  | ok ts =>
    cases probe with
    | error e => simp [errEnv]
    | ok tools => cases p.server_url <;> simp

/-- Status of every connect envelope. -/
theorem connectToServer_status (p : MCPParams) (probe : Except String (List RemoteTool))
    (now : Int) (st : SysState) :
    (connectToServer p probe now st).1.status = "success" ∨
      (connectToServer p probe now st).1.status = "error" := by
  unfold connectToServer
  cases h1 : truthyStr p.connection_id with
  | none => simp [errEnv]
  | some cid =>
    cases h2 : lookupConn st.connections cid with
    | none =>
      simpa [h2] using connectTry_status cid (p.transport.getD "stdio") p probe now st
    | some info =>
      by_cases h3 : info.is_active
      · simp [h2, h3, errEnv]
      · simpa [h2, h3] using connectTry_status cid (p.transport.getD "stdio") p probe now st

/-- Status of every disconnect envelope. -/
theorem disconnectFromServer_status (connection_id : Option String)
    (agentSupplied supportsUnreg : Bool) (unregFail : String → Option String)
    (st : SysState) :
    (disconnectFromServer connection_id agentSupplied supportsUnreg unregFail st).1.status
        = "success" ∨
      (disconnectFromServer connection_id agentSupplied supportsUnreg unregFail st).1.status
        = "error" := by
  unfold disconnectFromServer
  cases h1 : validateConnection connection_id false st.connections with
  | error e => simpa using Or.inr (validateConnection_error_status _ _ _ _ h1)
  | ok pr => rcases pr with ⟨cid, config⟩; simp

/-- Status of the list_connections envelope. -/
theorem listActiveConnections_status (st : SysState) :
    (listActiveConnections st).1.status = "success" := rfl

/-- Status of every list_tools envelope. -/
theorem listServerTools_status (connection_id : Option String)
    (res : Except String (List RemoteTool)) (st : SysState) :
    (listServerTools connection_id res st).1.status = "success" ∨
      (listServerTools connection_id res st).1.status = "error" := by
  unfold listServerTools
  cases h1 : validateConnection connection_id true st.connections with
  | error e => simpa using Or.inr (validateConnection_error_status _ _ _ _ h1)
  | ok pr =>
    rcases pr with ⟨cid, config⟩
    cases res <;> simp [errEnv]

/-- Status of every list_prompts envelope. -/
theorem listServerPrompts_status (connection_id : Option String)
    (res : Except String JVal) (st : SysState) :
    (listServerPrompts connection_id res st).1.status = "success" ∨
      (listServerPrompts connection_id res st).1.status = "error" := by
  unfold listServerPrompts
  cases h1 : validateConnection connection_id true st.connections with
  | error e => simpa using Or.inr (validateConnection_error_status _ _ _ _ h1)
  | ok pr =>
    rcases pr with ⟨cid, config⟩
    cases res <;> simp [errEnv]

/-- Status of every get_prompt envelope. -/
theorem getServerPrompt_status (connection_id prompt_name : Option String)
    (prompt_args : Option (List (String × JVal))) (res : Except String JVal)
    (st : SysState) :
    (getServerPrompt connection_id prompt_name prompt_args res st).1.status = "success" ∨
      (getServerPrompt connection_id prompt_name prompt_args res st).1.status = "error" := by
  unfold getServerPrompt
  cases h1 : truthyStr prompt_name with
  | none => simp [errEnv]
  | some pname =>
    cases h2 : validateConnection connection_id true st.connections with
    | error e => simpa using Or.inr (validateConnection_error_status _ _ _ _ h2)
    | ok pr =>
      rcases pr with ⟨cid, config⟩
      by_cases h3 : (nonStringKeys (prompt_args.getD [])).isEmpty
      · cases res <;> simp [h3, errEnv]
      · simp [h3, errEnv]

/-- Status of every list_resources envelope. -/
theorem listServerResources_status (connection_id : Option String)
    (res : Except String JVal) (st : SysState) :
    (listServerResources connection_id res st).1.status = "success" ∨
      (listServerResources connection_id res st).1.status = "error" := by
  unfold listServerResources
  cases h1 : validateConnection connection_id true st.connections with
  | error e => simpa using Or.inr (validateConnection_error_status _ _ _ _ h1)
  | ok pr =>
    rcases pr with ⟨cid, config⟩
    cases res <;> simp [errEnv]

/-- Status of every list_resource_templates envelope. -/
theorem listServerResourceTemplates_status (connection_id : Option String)
    (res : Except String JVal) (st : SysState) :
    (listServerResourceTemplates connection_id res st).1.status = "success" ∨
      (listServerResourceTemplates connection_id res st).1.status = "error" := by
  unfold listServerResourceTemplates
  cases h1 : validateConnection connection_id true st.connections with
  | error e => simpa using Or.inr (validateConnection_error_status _ _ _ _ h1)
  | ok pr =>
    rcases pr with ⟨cid, config⟩
    cases res <;> simp [errEnv]

/-- Status of every read_resource envelope. -/
theorem readServerResource_status (connection_id resource_uri : Option String)
    (res : Except String JVal) (st : SysState) :
    (readServerResource connection_id resource_uri res st).1.status = "success" ∨
      (readServerResource connection_id resource_uri res st).1.status = "error" := by
  unfold readServerResource
  cases h1 : truthyStr resource_uri with
  | none => simp [errEnv]
  | some uri =>
    cases h2 : validateConnection connection_id true st.connections with
    | error e => simpa using Or.inr (validateConnection_error_status _ _ _ _ h2)
    | ok pr =>
      rcases pr with ⟨cid, config⟩
      cases res <;> simp [errEnv]

/-- Status of every load_tools envelope. -/
theorem loadToolsToAgent_status (p : MCPParams)
    (listRes : Except String (List RemoteTool)) (regFail : String → Option String)
    (now : Int) (st : SysState) :
    (loadToolsToAgent p listRes regFail now st).1.status = "success" ∨
      (loadToolsToAgent p listRes regFail now st).1.status = "error" := by
  unfold loadToolsToAgent
  by_cases hreg : p.load_into_agent_registry
  · by_cases hag : p.agentSupplied
    · cases h1 : validateConnection p.connection_id true st.connections with
      | error e =>
        have he := validateConnection_error_status _ _ _ _ h1
        simp [hreg, hag, h1, he]
      | ok pr =>
        rcases pr with ⟨cid, config⟩
        by_cases hhr : p.agentHasRegistry
        · cases listRes with
          | error e => simp [hreg, hag, hhr, h1, errEnv]
          | ok tools => simp [hreg, hag, hhr, h1]
        · simp [hreg, hag, hhr, h1, errEnv]
    · simp [hreg, hag, errEnv]
  · cases h1 : validateConnection p.connection_id true st.connections with
    | error e =>
      have he := validateConnection_error_status _ _ _ _ h1
      simp [hreg, h1, he]
    | ok pr =>
      rcases pr with ⟨cid, config⟩
      cases listRes with
      | error e => simp [hreg, h1, errEnv]
      | ok tools => simp [hreg, h1]

/-- How a call_tool return relates to its action: envelopes carry status
success or error; the only non-envelope value is the forwarded SDK
ToolResult of the success path. -/
def retWellFormed (ret : MCPRet) (action : String) : Prop :=
  match ret with
  | .env e => e.status = "success" ∨ e.status = "error"
  | .forwarded _ => action = "call_tool"

/-- Every call_tool return is well formed. -/
theorem callServerTool_ret (connection_id tool_name : Option String)
    (callRes : Except String ToolResult) (st : SysState) :
    retWellFormed (callServerTool connection_id tool_name callRes st).1 "call_tool" := by
  unfold callServerTool
  cases h1 : truthyStr tool_name with
  | none => simp [retWellFormed, errEnv]
  | some tn =>
    cases h2 : validateConnection connection_id true st.connections with
    | error e =>
      simpa [retWellFormed] using Or.inr (validateConnection_error_status _ _ _ _ h2)
    | ok pr =>
      cases callRes <;> simp [retWellFormed, errEnv]

/-- The list_tools action never changes state. -/
theorem listServerTools_state (connection_id : Option String)
    (res : Except String (List RemoteTool)) (st : SysState) :
    (listServerTools connection_id res st).2 = st := by
  unfold listServerTools
  cases h1 : validateConnection connection_id true st.connections with
  | error e => rfl
  | ok pr => rcases pr with ⟨cid, config⟩; cases res <;> rfl

/-- The list_prompts action never changes state. -/
theorem listServerPrompts_state (connection_id : Option String)
    (res : Except String JVal) (st : SysState) :
    (listServerPrompts connection_id res st).2 = st := by
  unfold listServerPrompts
  cases h1 : validateConnection connection_id true st.connections with
  | error e => rfl
  | ok pr => rcases pr with ⟨cid, config⟩; cases res <;> rfl

/-- The get_prompt action never changes state. -/
theorem getServerPrompt_state (connection_id prompt_name : Option String)
    (prompt_args : Option (List (String × JVal))) (res : Except String JVal)
    (st : SysState) :
    (getServerPrompt connection_id prompt_name prompt_args res st).2 = st := by
  unfold getServerPrompt
  cases h1 : truthyStr prompt_name with
  | none => rfl
  | some pname =>
    cases h2 : validateConnection connection_id true st.connections with
    | error e => rfl
    | ok pr =>
      rcases pr with ⟨cid, config⟩
      by_cases h3 : (nonStringKeys (prompt_args.getD [])).isEmpty
      · cases res <;> simp [h3]
      · simp [h3]

/-- The list_resources action never changes state. -/
theorem listServerResources_state (connection_id : Option String)
    (res : Except String JVal) (st : SysState) :
    (listServerResources connection_id res st).2 = st := by
  unfold listServerResources
  cases h1 : validateConnection connection_id true st.connections with
  | error e => rfl
  | ok pr => rcases pr with ⟨cid, config⟩; cases res <;> rfl

/-- The list_resource_templates action never changes state. -/
theorem listServerResourceTemplates_state (connection_id : Option String)
    (res : Except String JVal) (st : SysState) :
    (listServerResourceTemplates connection_id res st).2 = st := by
  unfold listServerResourceTemplates
  cases h1 : validateConnection connection_id true st.connections with
  | error e => rfl
  | ok pr => rcases pr with ⟨cid, config⟩; cases res <;> rfl

/-- The read_resource action never changes state. -/
theorem readServerResource_state (connection_id resource_uri : Option String)
    (res : Except String JVal) (st : SysState) :
    (readServerResource connection_id resource_uri res st).2 = st := by
  unfold readServerResource
  cases h1 : truthyStr resource_uri with
  | none => rfl
  | some uri =>
    cases h2 : validateConnection connection_id true st.connections with
    | error e => rfl
    | ok pr => rcases pr with ⟨cid, config⟩; cases res <;> rfl

/-- The call_tool action never changes state, on every path including
the exception path. -/
theorem callServerTool_state (connection_id tool_name : Option String)
    (callRes : Except String ToolResult) (st : SysState) :
    (callServerTool connection_id tool_name callRes st).2 = st := by
  unfold callServerTool
  cases h1 : truthyStr tool_name with
  | none => rfl
  | some tn =>
    cases h2 : validateConnection connection_id true st.connections with
    | error e => rfl
    | ok pr => cases callRes <;> rfl

/-- The agent-loaded-names-are-loaded-names invariant over every
connection record. -/
def connAgentSubset (st : SysState) : Prop :=
  ∀ pr ∈ st.connections, ∀ n ∈ pr.2.agent_loaded_tool_names, n ∈ pr.2.loaded_tool_names

/-- The connect action preserves the subset invariant (a fresh record
has both lists empty). -/
theorem connAgentSubset_connect (p : MCPParams)
    (probe : Except String (List RemoteTool)) (now : Int) (st : SysState)
    (h : connAgentSubset st) : connAgentSubset (connectToServer p probe now st).2 := by
  have htry : ∀ cid transport, connAgentSubset (connectTry cid transport p probe now st).2 := by
    intro cid transport
    unfold connectTry
    cases createTransportCallable transport p with
    | error e => exact h
    | ok ts =>
      cases probe with
      | error e => exact h
      | ok tools =>
        intro pr hpr n hn
        rcases mem_insertConn _ _ _ _ (by simpa using hpr) with hthis | hthis
        · subst hthis; simp at hn
        · exact h pr hthis n hn
  unfold connectToServer
  cases h1 : truthyStr p.connection_id with
  | none => exact h
  | some cid =>
    cases h2 : lookupConn st.connections cid with
    | none => simpa [h2] using htry cid (p.transport.getD "stdio")
    | some info =>
      by_cases h3 : info.is_active
      · simpa [h2, h3] using h
      · simpa [h2, h3] using htry cid (p.transport.getD "stdio")

/-- The disconnect action preserves the subset invariant. -/
theorem connAgentSubset_disconnect (connection_id : Option String)
    (agentSupplied supportsUnreg : Bool) (unregFail : String → Option String)
    (st : SysState) (h : connAgentSubset st) :
    connAgentSubset
      (disconnectFromServer connection_id agentSupplied supportsUnreg unregFail st).2 := by
  unfold disconnectFromServer
  cases h1 : validateConnection connection_id false st.connections with
  | error e => exact h
  | ok pr =>
    rcases pr with ⟨cid, config⟩
    intro q hq n hn
    exact h q (mem_removeConn _ _ _ (by simpa using hq)) n hn

/-- The load_tools action preserves the subset invariant: every name
appended to agent_loaded_tool_names is truthy and was appended to
loaded_tool_names in the same batch. -/
theorem connAgentSubset_loadTools (p : MCPParams)
    (listRes : Except String (List RemoteTool)) (regFail : String → Option String)
    (now : Int) (st : SysState) (h : connAgentSubset st) :
    connAgentSubset (loadToolsToAgent p listRes regFail now st).2 := by
  unfold loadToolsToAgent
  by_cases hreg : p.load_into_agent_registry
  · by_cases hag : p.agentSupplied
    · cases h1 : validateConnection p.connection_id true st.connections with
      | error e => simpa [hreg, hag, h1] using h
      | ok pr =>
        rcases pr with ⟨cid, config⟩
        have hconf := (validateConnection_ok _ _ _ _ _ h1).2.1
        by_cases hhr : p.agentHasRegistry
        · cases listRes with
          | error e => simpa [hreg, hag, hhr, h1] using h
          | ok tools =>
            simp only [hreg, hag, hhr, h1]
            intro q hq n hn
            rcases mem_insertConn _ _ _ _ (by simpa [hreg, hag, hhr] using hq)
              with hthis | hthis
            · subst hthis
              simp only at hn ⊢
              rcases mem_dedupAppend_cases _ _ hn with hb | ⟨hmem, hne⟩
              · exact mem_dedupAppend_base _ _
                  (h (cid, config) (lookupConn_mem _ _ _ hconf) n hb)
              · refine mem_dedupAppend_of_mem _ _ ?_ hne
                have hmem2 : n ∈ (tools.filter
                    (fun t => (regFail t.tool_name).isNone)).map RemoteTool.tool_name := by
                  simpa [hreg] using hmem
                rcases List.mem_map.mp hmem2 with ⟨t, hts, htn⟩
                refine List.mem_filter.mpr ⟨List.mem_map.mpr
                  ⟨t, List.mem_of_mem_filter hts, htn⟩, by simpa [htn] using hne⟩
            · exact h q hthis n hn
        · simpa [hreg, hag, hhr, h1] using h
    · simpa [hreg, hag] using h
  · cases h1 : validateConnection p.connection_id true st.connections with
    | error e => simpa [hreg, h1] using h
    | ok pr =>
      rcases pr with ⟨cid, config⟩
      have hconf := (validateConnection_ok _ _ _ _ _ h1).2.1
      cases listRes with
      | error e => simpa [hreg, h1] using h
      | ok tools =>
        simp only [hreg, h1]
        intro q hq n hn
        rcases mem_insertConn _ _ _ _ (by simpa [hreg] using hq) with hthis | hthis
        · subst hthis
          simp only [hreg] at hn ⊢
          rcases mem_dedupAppend_cases _ _ hn with hb | ⟨hmem, _⟩
          · exact mem_dedupAppend_base _ _
              (h (cid, config) (lookupConn_mem _ _ _ hconf) n hb)
          · simp at hmem
        · exact h q hthis n hn

/-- The wrapped-tool execution path preserves the subset invariant (it
only ever touches liveness fields). -/
theorem connAgentSubset_stream (cid tn uid : String)
    (callRes : Except String ToolResult) (st : SysState) (h : connAgentSubset st) :
    connAgentSubset (mcpToolStream cid tn uid callRes st).2 := by
  unfold mcpToolStream
  cases h1 : lookupConn st.connections cid with
  | none => exact h
  | some config =>
    by_cases h2 : config.is_active
    · cases callRes with
      | ok r => simpa [h1, h2] using h
      | error e =>
        simp only [h1, h2]
        intro q hq n hn
        rcases mem_insertConn _ _ _ _ (by simpa using hq) with hthis | hthis
        · subst hthis
          exact h (cid, config) (lookupConn_mem _ _ _ h1) n (by simpa using hn)
        · exact h q hthis n hn
    · simpa [h1, h2] using h

/-- Either connect leaves the state alone, or it stores one fresh active
record with empty bookkeeping lists. -/
theorem connectToServer_state_cases (p : MCPParams)
    (probe : Except String (List RemoteTool)) (now : Int) (st : SysState) :
    (connectToServer p probe now st).2 = st ∨
    ∃ cid freshInfo, freshInfo.is_active = true ∧
      freshInfo.loaded_tool_names = [] ∧
      freshInfo.agent_loaded_tool_names = [] ∧
      (connectToServer p probe now st).2
        = { st with connections := insertConn st.connections cid freshInfo } := by
  have htry : ∀ cid transport,
      (connectTry cid transport p probe now st).2 = st ∨
      ∃ cid2 freshInfo, freshInfo.is_active = true ∧
        freshInfo.loaded_tool_names = [] ∧
        freshInfo.agent_loaded_tool_names = [] ∧
        (connectTry cid transport p probe now st).2
          = { st with connections := insertConn st.connections cid2 freshInfo } := by
    intro cid transport
    unfold connectTry
    cases createTransportCallable transport p with
    | error e => exact Or.inl rfl
    | ok ts =>
      cases probe with
      | error e => exact Or.inl rfl
      | ok tools =>
        refine Or.inr ⟨cid, _, rfl, rfl, rfl, rfl⟩
  unfold connectToServer
  cases h1 : truthyStr p.connection_id with
  | none => exact Or.inl rfl
  | some cid =>
    cases h2 : lookupConn st.connections cid with
    | none => simpa [h2] using htry cid (p.transport.getD "stdio")
    | some info =>
      by_cases h3 : info.is_active
      · simp [h2, h3]
      · simpa [h2, h3] using htry cid (p.transport.getD "stdio")

/-- Either disconnect leaves the state alone, or it removes exactly one
record (possibly also shrinking the agent registry). -/
theorem disconnectFromServer_state_cases (connection_id : Option String)
    (agentSupplied supportsUnreg : Bool) (unregFail : String → Option String)
    (st : SysState) :
    (disconnectFromServer connection_id agentSupplied supportsUnreg unregFail st).2 = st ∨
    ∃ cid reg,
      (disconnectFromServer connection_id agentSupplied supportsUnreg unregFail st).2
        = { st with connections := removeConn st.connections cid, agentRegistry := reg } := by
  unfold disconnectFromServer
  cases h1 : validateConnection connection_id false st.connections with
  | error e => exact Or.inl rfl
  | ok pr =>
    rcases pr with ⟨cid, config⟩
    exact Or.inr ⟨cid, _, rfl⟩

/-- Either load_tools leaves the state alone, or it rebuilds exactly the
record it validated, changing only the two name lists. -/
theorem loadToolsToAgent_state_cases (p : MCPParams)
    (listRes : Except String (List RemoteTool)) (regFail : String → Option String)
    (now : Int) (st : SysState) :
    (loadToolsToAgent p listRes regFail now st).2 = st ∨
    ∃ cid config lt at2 cat reg,
      lookupConn st.connections cid = some config ∧
      (loadToolsToAgent p listRes regFail now st).2
        = { connections := insertConn st.connections cid
              { config with loaded_tool_names := lt, agent_loaded_tool_names := at2 }
            catalog := cat
            agentRegistry := reg } := by
  unfold loadToolsToAgent
  by_cases hreg : p.load_into_agent_registry
  · by_cases hag : p.agentSupplied
    · cases h1 : validateConnection p.connection_id true st.connections with
      | error e => simp [hreg, hag, h1]
      | ok pr =>
        rcases pr with ⟨cid, config⟩
        have hconf := (validateConnection_ok _ _ _ _ _ h1).2.1
        by_cases hhr : p.agentHasRegistry
        · cases listRes with
          | error e => simp [hreg, hag, hhr, h1]
          | ok tools =>
            refine Or.inr ⟨cid, config,
              dedupAppend config.loaded_tool_names
                ((tools.map RemoteTool.tool_name).filter (fun n => n ≠ "")),
              dedupAppend config.agent_loaded_tool_names
                (if p.load_into_agent_registry then
                  (tools.filter (fun t => (regFail t.tool_name).isNone)).map
                    RemoteTool.tool_name
                else []),
              registerMcpToolsInCatalog cid tools now st.catalog,
              (if p.load_into_agent_registry then
                  (tools.filter (fun t => (regFail t.tool_name).isNone)).map
                    RemoteTool.tool_name
                else []).foldl registerInAgent st.agentRegistry,
              hconf, ?_⟩
            simp [hreg, hag, hhr, h1]
        · simp [hreg, hag, hhr, h1]
    · simp [hreg, hag]
  · cases h1 : validateConnection p.connection_id true st.connections with
    | error e => simp [hreg, h1]
    | ok pr =>
      rcases pr with ⟨cid, config⟩
      have hconf := (validateConnection_ok _ _ _ _ _ h1).2.1
      cases listRes with
      | error e => simp [hreg, h1]
      | ok tools =>
        refine Or.inr ⟨cid, config,
          dedupAppend config.loaded_tool_names
            ((tools.map RemoteTool.tool_name).filter (fun n => n ≠ "")),
          dedupAppend config.agent_loaded_tool_names
            (if p.load_into_agent_registry then
              (tools.filter (fun t => (regFail t.tool_name).isNone)).map
                RemoteTool.tool_name
            else []),
          registerMcpToolsInCatalog cid tools now st.catalog,
          (if p.load_into_agent_registry then
              (tools.filter (fun t => (regFail t.tool_name).isNone)).map
                RemoteTool.tool_name
            else []).foldl registerInAgent st.agentRegistry,
          hconf, ?_⟩
        simp [hreg, h1]

/-- No record that was active before the step is inactive after it. -/
def noDowngrade (st st2 : SysState) : Prop :=
  ∀ cid info info2, lookupConn st.connections cid = some info →
    lookupConn st2.connections cid = some info2 →
    info.is_active = true → info2.is_active = true

/-- The identity step never downgrades. -/
theorem noDowngrade_refl (st : SysState) : noDowngrade st st := by
  intro cid info info2 h1 h2 _
  rw [h1] at h2
  cases h2
  assumption

/-- The state reached by the dispatcher is the state of the selected
handler (or the input state for an unknown action). -/
theorem mcpClientDispatch_state (action : String) (p : MCPParams) (o : MCPOracles)
    (st : SysState) :
    (action = "connect" ∧ (mcpClientDispatch action p o st).2 = (connectToServer p o.probe o.now st).2) ∨
    (action = "disconnect" ∧ (mcpClientDispatch action p o st).2 = (disconnectFromServer p.connection_id p.agentSupplied o.agentSupportsUnreg o.unregFail st).2) ∨
    (action = "list_connections" ∧ (mcpClientDispatch action p o st).2 = (listActiveConnections st).2) ∨
    (action = "list_tools" ∧ (mcpClientDispatch action p o st).2 = (listServerTools p.connection_id o.listToolsRes st).2) ∨
    (action = "call_tool" ∧ (mcpClientDispatch action p o st).2 = (callServerTool p.connection_id p.tool_name o.callRes st).2) ∨
    (action = "load_tools" ∧ (mcpClientDispatch action p o st).2 = (loadToolsToAgent p o.loadListRes o.regFail o.now st).2) ∨
    (action = "list_prompts" ∧ (mcpClientDispatch action p o st).2 = (listServerPrompts p.connection_id o.promptsRes st).2) ∨
    (action = "get_prompt" ∧ (mcpClientDispatch action p o st).2 = (getServerPrompt p.connection_id p.prompt_name p.prompt_args o.promptRes st).2) ∨
    (action = "list_resources" ∧ (mcpClientDispatch action p o st).2 = (listServerResources p.connection_id o.resourcesRes st).2) ∨
    (action = "list_resource_templates" ∧ (mcpClientDispatch action p o st).2 = (listServerResourceTemplates p.connection_id o.templatesRes st).2) ∨
    (action = "read_resource" ∧ (mcpClientDispatch action p o st).2 = (readServerResource p.connection_id p.resource_uri o.resourceRes st).2) ∨
    ((mcpClientDispatch action p o st).2 = st) := by
  unfold mcpClientDispatch
  by_cases h0 : action = "connect"
  · rw [if_pos h0]
    exact Or.inl ⟨h0, rfl⟩
  · rw [if_neg h0]
    by_cases h1 : action = "disconnect"
    · rw [if_pos h1]
      exact Or.inr (Or.inl ⟨h1, rfl⟩)
    · rw [if_neg h1]
      by_cases h2 : action = "list_connections"
      · rw [if_pos h2]
        exact Or.inr (Or.inr (Or.inl ⟨h2, rfl⟩))
      · rw [if_neg h2]
        by_cases h3 : action = "list_tools"
        · rw [if_pos h3]
          exact Or.inr (Or.inr (Or.inr (Or.inl ⟨h3, rfl⟩)))
        · rw [if_neg h3]
          by_cases h4 : action = "call_tool"
          · rw [if_pos h4]
            exact Or.inr (Or.inr (Or.inr (Or.inr (Or.inl ⟨h4, rfl⟩))))
          · rw [if_neg h4]
            by_cases h5 : action = "load_tools"
            · rw [if_pos h5]
              exact Or.inr (Or.inr (Or.inr (Or.inr (Or.inr (Or.inl ⟨h5, rfl⟩)))))
            · rw [if_neg h5]
              by_cases h6 : action = "list_prompts"
              · rw [if_pos h6]
                exact Or.inr (Or.inr (Or.inr (Or.inr (Or.inr (Or.inr (Or.inl ⟨h6, rfl⟩))))))
              · rw [if_neg h6]
                by_cases h7 : action = "get_prompt"
                · rw [if_pos h7]
                  exact Or.inr (Or.inr (Or.inr (Or.inr (Or.inr (Or.inr (Or.inr (Or.inl ⟨h7, rfl⟩)))))))
                · rw [if_neg h7]
                  by_cases h8 : action = "list_resources"
                  · rw [if_pos h8]
                    exact Or.inr (Or.inr (Or.inr (Or.inr (Or.inr (Or.inr (Or.inr (Or.inr (Or.inl ⟨h8, rfl⟩))))))))
                  · rw [if_neg h8]
                    by_cases h9 : action = "list_resource_templates"
                    · rw [if_pos h9]
                      exact Or.inr (Or.inr (Or.inr (Or.inr (Or.inr (Or.inr (Or.inr (Or.inr (Or.inr (Or.inl ⟨h9, rfl⟩)))))))))
                    · rw [if_neg h9]
                      by_cases h10 : action = "read_resource"
                      · rw [if_pos h10]
                        exact Or.inr (Or.inr (Or.inr (Or.inr (Or.inr (Or.inr (Or.inr (Or.inr (Or.inr (Or.inr (Or.inl ⟨h10, rfl⟩))))))))))
                      · rw [if_neg h10]
                        exact Or.inr (Or.inr (Or.inr (Or.inr (Or.inr (Or.inr (Or.inr (Or.inr (Or.inr (Or.inr (Or.inr (rfl)))))))))))

/-- No mcp_client action ever downgrades a live connection (the one
downgrade lives in MCPTool.stream): connect stores active records,
disconnect removes records, load_tools keeps liveness, and every other
action leaves the table untouched. -/
theorem mcpClientDispatch_noDowngrade (action : String) (p : MCPParams)
    (o : MCPOracles) (st : SysState)
    (hnd : (st.connections.map Prod.fst).Nodup) :
    noDowngrade st (mcpClientDispatch action p o st).2 := by
  rcases mcpClientDispatch_state action p o st with
    ⟨_, hs⟩ | ⟨_, hs⟩ | ⟨_, hs⟩ | ⟨_, hs⟩ | ⟨_, hs⟩ | ⟨_, hs⟩ | ⟨_, hs⟩ | ⟨_, hs⟩ |
    ⟨_, hs⟩ | ⟨_, hs⟩ | ⟨_, hs⟩ | hs
  · -- connect
    rw [hs]
    rcases connectToServer_state_cases p o.probe o.now st with hc | ⟨c2, fresh, hact, _, _, hc⟩
    · rw [hc]; exact noDowngrade_refl st
    · rw [hc]
      intro cid info info2 h1 h2 hia
      have h2b : lookupConn (insertConn st.connections c2 fresh) cid = some info2 := h2
      rw [lookupConn_insertConn] at h2b
      by_cases he : c2 = cid
      · rw [if_pos he] at h2b
        cases h2b
        exact hact
      · rw [if_neg he, h1] at h2b
        cases h2b
        exact hia
  · -- disconnect
    rw [hs]
    rcases disconnectFromServer_state_cases p.connection_id p.agentSupplied
        o.agentSupportsUnreg o.unregFail st with hd | ⟨c2, reg, hd⟩
    · rw [hd]; exact noDowngrade_refl st
    · rw [hd]
      intro cid info info2 h1 h2 hia
      have h2b : lookupConn (removeConn st.connections c2) cid = some info2 := h2
      by_cases he : cid = c2
      · subst he
        rw [lookupConn_removeConn_self _ _ hnd] at h2b
        cases h2b
      · rw [lookupConn_removeConn_ne _ _ _ he, h1] at h2b
        cases h2b
        exact hia
  · rw [hs]; exact noDowngrade_refl st
  · rw [hs, listServerTools_state]; exact noDowngrade_refl st
  · rw [hs, callServerTool_state]; exact noDowngrade_refl st
  · -- load_tools
    rw [hs]
    rcases loadToolsToAgent_state_cases p o.loadListRes o.regFail o.now st with
      hl | ⟨c2, config, lt, at2, cat, reg, hconf, hl⟩
    · rw [hl]; exact noDowngrade_refl st
    · rw [hl]
      intro cid info info2 h1 h2 hia
      have h2b : lookupConn (insertConn st.connections c2
          { config with loaded_tool_names := lt, agent_loaded_tool_names := at2 })
          cid = some info2 := h2
      rw [lookupConn_insertConn] at h2b
      by_cases he : c2 = cid
      · rw [if_pos he] at h2b
        subst he
        rw [h1] at hconf
        cases hconf
        cases h2b
        exact hia
      · rw [if_neg he, h1] at h2b
        cases h2b
        exact hia
  · rw [hs, listServerPrompts_state]; exact noDowngrade_refl st
  · rw [hs, getServerPrompt_state]; exact noDowngrade_refl st
  · rw [hs, listServerResources_state]; exact noDowngrade_refl st
  · rw [hs, listServerResourceTemplates_state]; exact noDowngrade_refl st
  · rw [hs, readServerResource_state]; exact noDowngrade_refl st
  · rw [hs]; exact noDowngrade_refl st

/-- Every value the mcp_client dispatch returns is an envelope with
status success or error, except the forwarded SDK ToolResult, which only
the call_tool action produces. -/
theorem mcpClientDispatch_retWellFormed (action : String) (p : MCPParams)
    (o : MCPOracles) (st : SysState) :
    retWellFormed (mcpClientDispatch action p o st).1 action := by
  unfold mcpClientDispatch
  by_cases h0 : action = "connect"
  · rw [if_pos h0]
    show retWellFormed (MCPRet.env _) action
    exact connectToServer_status p o.probe o.now st
  · rw [if_neg h0]
    by_cases h1 : action = "disconnect"
    · rw [if_pos h1]
      show retWellFormed (MCPRet.env _) action
      exact disconnectFromServer_status p.connection_id p.agentSupplied o.agentSupportsUnreg o.unregFail st
    · rw [if_neg h1]
      by_cases h2 : action = "list_connections"
      · rw [if_pos h2]
        show retWellFormed (MCPRet.env _) action
        exact Or.inl rfl
      · rw [if_neg h2]
        by_cases h3 : action = "list_tools"
        · rw [if_pos h3]
          show retWellFormed (MCPRet.env _) action
          exact listServerTools_status p.connection_id o.listToolsRes st
        · rw [if_neg h3]
          by_cases h4 : action = "call_tool"
          · rw [if_pos h4]
            subst h4
            exact callServerTool_ret p.connection_id p.tool_name o.callRes st
          · rw [if_neg h4]
            by_cases h5 : action = "load_tools"
            · rw [if_pos h5]
              show retWellFormed (MCPRet.env _) action
              exact loadToolsToAgent_status p o.loadListRes o.regFail o.now st
            · rw [if_neg h5]
              by_cases h6 : action = "list_prompts"
              · rw [if_pos h6]
                show retWellFormed (MCPRet.env _) action
                exact listServerPrompts_status p.connection_id o.promptsRes st
              · rw [if_neg h6]
                by_cases h7 : action = "get_prompt"
                · rw [if_pos h7]
                  show retWellFormed (MCPRet.env _) action
                  exact getServerPrompt_status p.connection_id p.prompt_name p.prompt_args o.promptRes st
                · rw [if_neg h7]
                  by_cases h8 : action = "list_resources"
                  · rw [if_pos h8]
                    show retWellFormed (MCPRet.env _) action
                    exact listServerResources_status p.connection_id o.resourcesRes st
                  · rw [if_neg h8]
                    by_cases h9 : action = "list_resource_templates"
                    · rw [if_pos h9]
                      show retWellFormed (MCPRet.env _) action
                      exact listServerResourceTemplates_status p.connection_id o.templatesRes st
                    · rw [if_neg h9]
                      by_cases h10 : action = "read_resource"
                      · rw [if_pos h10]
                        show retWellFormed (MCPRet.env _) action
                        exact readServerResource_status p.connection_id p.resource_uri o.resourceRes st
                      · rw [if_neg h10]
                        exact Or.inr rfl

/-- The four statuses a batch envelope can carry. -/
theorem batchRun_status (agent : BatchAgent) (invocations : List BatchInvocation) :
    (batchRun agent invocations).status = "success" ∨
    (batchRun agent invocations).status = "partial_success" ∨
    (batchRun agent invocations).status = "failed" ∨
    (batchRun agent invocations).status = "error" := by
  unfold batchRun
  by_cases h1 : agent.hasTool
  · cases h2 : batchLoop agent invocations with
    | error e => simp [h1, h2, errEnv]
    | ok results =>
      by_cases h3 : (results.filter (fun r => resultStatusIs r "error")).length = 0
      · simp [h1, h2, h3]
      · by_cases h4 : (results.filter (fun r => resultStatusIs r "success")).length > 0
        · simp [h1, h2, h3, h4]
        · simp [h1, h2, h3, h4]
  · simp [h1, errEnv]

/-- An agent with a tool attribute but no registered tools, for the
batch counterexample. -/
def cexBatchAgent : BatchAgent := ⟨true, fun _ => none⟩

/-- Claim C1 counterexample: a batch invocation whose single tool is
missing returns the envelope status "failed", which is neither "success"
nor "error"; the top-level status union of the repository is wider than
the claimed pair. -/
theorem claim_C1_counterexample :
    ¬((batchRun cexBatchAgent [⟨some "nope", []⟩]).status = "success" ∨
      (batchRun cexBatchAgent [⟨some "nope", []⟩]).status = "error") := by
  intro h
  have hst : (batchRun cexBatchAgent [⟨some "nope", []⟩]).status = "failed" := rfl
  rw [hst] at h
  rcases h with h | h <;> exact absurd h (by decide)

/-- Claim C1, amended: every envelope an mcp_client action builds is the
two-key \x7bstatus, content\x7d shape with status success or error, and the
only non-envelope return is call_tool forwarding the SDK ToolResult
(which carries a toolUseId); the batch tool keeps the two-key shape but
its status ranges over success, partial_success, failed and error. -/
theorem claim_C1_amended :
    (∀ (action : String) (p : MCPParams) (o : MCPOracles) (st : SysState),
        retWellFormed (mcpClientDispatch action p o st).1 action) ∧
    (∀ (agent : BatchAgent) (invocations : List BatchInvocation),
        (batchRun agent invocations).status = "success" ∨
        (batchRun agent invocations).status = "partial_success" ∨
        (batchRun agent invocations).status = "failed" ∨
        (batchRun agent invocations).status = "error") :=
  ⟨mcpClientDispatch_retWellFormed, batchRun_status⟩

/-- An empty catalog with the default 30-second TTL. -/
def emptyCatalog : CatalogState := ⟨[], 0, none, none, 30⟩

/-- A dead connection record for connection id a. -/
def inactiveInfo : ConnectionInfo :=
  { connection_id := "a", transport := "stdio", url := "echo ", register_time := 0
    is_active := false, last_error := some "dead"
    loaded_tool_names := ["t1"], agent_loaded_tool_names := ["t1"] }

/-- A live connection record for connection id a. -/
def activeInfo : ConnectionInfo :=
  { connection_id := "a", transport := "stdio", url := "echo ", register_time := 0
    is_active := true, last_error := none
    loaded_tool_names := [], agent_loaded_tool_names := [] }

/-- A state holding only the dead record. -/
def stWithInactive : SysState := ⟨[("a", inactiveInfo)], emptyCatalog, ["t1"]⟩

/-- A state holding only the live record. -/
def stWithActive : SysState := ⟨[("a", activeInfo)], emptyCatalog, []⟩

/-- Stdio connect parameters for connection id a. -/
def stdioParamsA : MCPParams :=
  { connection_id := some "a", transport := some "stdio", command := some "echo" }

/-- The probe-failure behaviour of connectTry. -/
theorem connectTry_probe_error (cid transport : String) (p : MCPParams) (e : String)
    (now : Int) (st : SysState) (ts : TransportSpec)
    (htrans : createTransportCallable transport p = .ok ts) :
    connectTry cid transport p (.error e) now st
      = (errEnv s!"Connection failed: {e}", st) := by
  unfold connectTry
  rw [htrans]

/-- Claim C2, amended: when the transport probe raises, connect returns
an error envelope wrapping the transport error and leaves the whole
state untouched; in particular nothing new is stored, and when no record
with that id existed beforehand, a subsequent list_connections still
shows no record for it. (As stated, the claim fails when a dead record
with the same id already exists: that record remains listed.) -/
theorem claim_C2_amended (p : MCPParams) (e : String) (now : Int) (st : SysState)
    (cid : String) (ts : TransportSpec)
    (hcid : truthyStr p.connection_id = some cid)
    (hna : ∀ info, lookupConn st.connections cid = some info → info.is_active = false)
    (htrans : createTransportCallable (p.transport.getD "stdio") p = .ok ts) :
    connectToServer p (.error e) now st = (errEnv s!"Connection failed: {e}", st) ∧
    (lookupConn st.connections cid = none →
      lookupConn (connectToServer p (.error e) now st).2.connections cid = none) := by
  have hmain : connectToServer p (.error e) now st
      = (errEnv s!"Connection failed: {e}", st) := by
    unfold connectToServer
    rw [hcid]
    cases hl : lookupConn st.connections cid with
    | none => simpa [hl] using connectTry_probe_error cid (p.transport.getD "stdio") p e now st ts htrans
    | some info =>
      have hinact : info.is_active = false := hna info hl
      simpa [hl, hinact] using
        connectTry_probe_error cid (p.transport.getD "stdio") p e now st ts htrans
  refine ⟨hmain, fun hnone => ?_⟩
  rw [hmain]
  exact hnone

/-- Claim C2 witness: a fresh stdio connect whose probe raises returns
the wrapped error and stores nothing. -/
theorem claim_C2_amended_witness :
    connectToServer stdioParamsA (.error "boom") 1 ⟨[], emptyCatalog, []⟩
      = (errEnv "Connection failed: boom", ⟨[], emptyCatalog, []⟩) ∧
    lookupConn (connectToServer stdioParamsA (.error "boom") 1
      ⟨[], emptyCatalog, []⟩).2.connections "a" = none := by
  have h := claim_C2_amended stdioParamsA "boom" 1 ⟨[], emptyCatalog, []⟩ "a"
    (.stdio "echo" [] none) rfl (fun info hinfo => by simp [lookupConn] at hinfo) rfl
  exact ⟨h.1, h.2 rfl⟩

/-- Claim C2 counterexample: with a dead record already stored under the
same id, a probe-failing connect still returns the error envelope, but a
ConnectionInfo for that id remains stored and list_connections would
still include it. -/
theorem claim_C2_counterexample :
    (connectToServer stdioParamsA (.error "boom") 1 stWithInactive).1.status = "error" ∧
    lookupConn (connectToServer stdioParamsA (.error "boom") 1
        stWithInactive).2.connections "a" = some inactiveInfo ∧
    ((connectToServer stdioParamsA (.error "boom") 1
        stWithInactive).2.connections.map Prod.fst) = ["a"] := by
  refine ⟨rfl, rfl, rfl⟩

/-- Claim C3: connecting under an id whose record is active is rejected
with the connection-exists error, whatever the transport and parameters,
and the whole state is left unchanged. -/
theorem claim_C3 (p : MCPParams) (probe : Except String (List RemoteTool))
    (now : Int) (st : SysState) (cid : String) (info : ConnectionInfo)
    (hcid : truthyStr p.connection_id = some cid)
    (hl : lookupConn st.connections cid = some info)
    (hact : info.is_active = true) :
    connectToServer p probe now st
      = (errEnv s!"Connection '{cid}' already exists and is active", st) := by
  unfold connectToServer
  rw [hcid]
  simp [hl, hact]

/-- Claim C3 witness: reconnecting the live id a with broken stdio
parameters (no command) still reports the duplicate, not the parameter
problem, and changes nothing. -/
theorem claim_C3_witness :
    connectToServer { connection_id := some "a", transport := some "stdio" }
        (.error "probe never runs") 7 stWithActive
      = (errEnv "Connection 'a' already exists and is active", stWithActive) :=
  claim_C3 _ _ 7 stWithActive "a" activeInfo rfl rfl rfl

/-- Claim C4: the agent_loaded_tool_names-is-a-subset-of-
loaded_tool_names invariant holds after every operation of the
connection manager (every mcp_client action and every wrapped-tool
execution), for every connection record. -/
theorem claim_C4 (op : SysOp) (st : SysState) (h : connAgentSubset st) :
    connAgentSubset (applySysOp op st) := by
  cases op with
  | act action p o =>
    show connAgentSubset (mcpClientDispatch action p o st).2
    rcases mcpClientDispatch_state action p o st with
      ⟨_, hs⟩ | ⟨_, hs⟩ | ⟨_, hs⟩ | ⟨_, hs⟩ | ⟨_, hs⟩ | ⟨_, hs⟩ | ⟨_, hs⟩ | ⟨_, hs⟩ |
      ⟨_, hs⟩ | ⟨_, hs⟩ | ⟨_, hs⟩ | hs
    · rw [hs]; exact connAgentSubset_connect p o.probe o.now st h
    · rw [hs]; exact connAgentSubset_disconnect p.connection_id p.agentSupplied
        o.agentSupportsUnreg o.unregFail st h
    · rw [hs]; exact h
    · rw [hs, listServerTools_state]; exact h
    · rw [hs, callServerTool_state]; exact h
    · rw [hs]; exact connAgentSubset_loadTools p o.loadListRes o.regFail o.now st h
    · rw [hs, listServerPrompts_state]; exact h
    · rw [hs, getServerPrompt_state]; exact h
    · rw [hs, listServerResources_state]; exact h
    · rw [hs, listServerResourceTemplates_state]; exact h
    · rw [hs, readServerResource_state]; exact h
    · rw [hs]; exact h
  | streamExec cid tn uid res =>
    exact connAgentSubset_stream cid tn uid res st h

/-- Claim C4 witness: one load_tools step over a live connection, with
the invariant checked on the concrete result. -/
theorem claim_C4_witness :
    connAgentSubset (applySysOp
      (.act "load_tools"
        { connection_id := some "a", load_into_agent_registry := true
          agentSupplied := true, agentHasRegistry := true }
        { loadListRes := .ok [⟨"t1", "d", .obj []⟩, ⟨"t2", "", .obj []⟩] })
      stWithActive) :=
  claim_C4 _ stWithActive
    (by
      intro pr hpr n hn
      rcases List.mem_cons.mp hpr with hpr | hpr
      · subst hpr; simpa [stWithActive, activeInfo] using hn
      · simp [stWithActive] at hpr)

/-- Claim C5: liveness is downgraded automatically in exactly one place.
A failing direct call_tool leaves the whole state (hence is_active and
last_error) unchanged and surfaces an error envelope; a failing wrapped
tool execution rewrites the owning record with is_active false and
last_error set; a successful wrapped execution changes nothing; and no
mcp_client action ever takes a record from active to inactive. -/
theorem claim_C5 :
    (∀ (connection_id tool_name : Option String) (e : String) (st : SysState),
        (callServerTool connection_id tool_name (.error e) st).2 = st) ∧
    (∀ (connection_id tool_name : Option String) (e : String) (st : SysState)
        (tn : String) (pr : String × ConnectionInfo),
        truthyStr tool_name = some tn →
        validateConnection connection_id true st.connections = .ok pr →
        (callServerTool connection_id tool_name (.error e) st).1
          = .env (errEnv s!"Failed to call tool: {e}")) ∧
    (∀ (cid tn uid e : String) (st : SysState) (config : ConnectionInfo),
        lookupConn st.connections cid = some config → config.is_active = true →
        (mcpToolStream cid tn uid (.error e) st).2.connections
            = insertConn st.connections cid
                { config with is_active := false, last_error := some e } ∧
          (mcpToolStream cid tn uid (.error e) st).1.status = "error") ∧
    (∀ (cid tn uid : String) (r : ToolResult) (st : SysState),
        (mcpToolStream cid tn uid (.ok r) st).2 = st) ∧
    (∀ (action : String) (p : MCPParams) (o : MCPOracles) (st : SysState),
        (st.connections.map Prod.fst).Nodup →
        noDowngrade st (mcpClientDispatch action p o st).2) := by
  refine ⟨?_, ?_, ?_, ?_, ?_⟩
  · intro connection_id tool_name e st
    exact callServerTool_state connection_id tool_name (.error e) st
  · intro connection_id tool_name e st tn pr ht hv
    unfold callServerTool
    rw [ht, hv]
  · intro cid tn uid e st config hl hact
    unfold mcpToolStream
    rw [hl]
    simp [hact]
  · intro cid tn uid r st
    unfold mcpToolStream
    cases hl : lookupConn st.connections cid with
    | none => rfl
    | some config =>
      by_cases hact : config.is_active <;> simp [hact]
  · intro action p o st hnd
    exact mcpClientDispatch_noDowngrade action p o st hnd

/-- Claim C5 witness: a failing direct call on the live connection
leaves the state alone; a failing wrapped execution on the same state
flips the record to inactive with the error recorded. -/
theorem claim_C5_witness :
    (callServerTool (some "a") (some "t") (.error "x") stWithActive).2 = stWithActive ∧
    (callServerTool (some "a") (some "t") (.error "x") stWithActive).1
      = .env (errEnv "Failed to call tool: x") ∧
    (mcpToolStream "a" "t" "u" (.error "x") stWithActive).2.connections
      = insertConn stWithActive.connections "a"
          { activeInfo with is_active := false, last_error := some "x" } := by
  refine ⟨claim_C5.1 (some "a") (some "t") "x" stWithActive,
    claim_C5.2.1 (some "a") (some "t") "x" stWithActive "t" ("a", activeInfo) rfl rfl,
    (claim_C5.2.2.1 "a" "t" "u" "x" stWithActive activeInfo rfl rfl).1⟩

/-- Claim C10: re-connecting an id whose record is inactive is accepted,
and on a successful probe the old record is replaced wholesale by a
fresh ConnectionInfo with empty loaded_tool_names and
agent_loaded_tool_names; the agent registry is not touched, so whatever
cleanup bookkeeping the old record carried is discarded. -/
theorem claim_C10 (p : MCPParams) (tools : List RemoteTool) (now : Int)
    (st : SysState) (cid : String) (old : ConnectionInfo) (ts : TransportSpec)
    (hcid : truthyStr p.connection_id = some cid)
    (hl : lookupConn st.connections cid = some old)
    (hinact : old.is_active = false)
    (htrans : createTransportCallable (p.transport.getD "stdio") p = .ok ts) :
    (connectToServer p (.ok tools) now st).1.status = "success" ∧
    lookupConn (connectToServer p (.ok tools) now st).2.connections cid
      = some { connection_id := cid
               transport := p.transport.getD "stdio"
               url := (match p.server_url with
                 | some u => u
                 | none => (p.command.getD "") ++ " " ++
                     String.intercalate " " (p.args.getD []))
               register_time := now
               is_active := true
               last_error := none
               loaded_tool_names := []
               agent_loaded_tool_names := [] } ∧
    (connectToServer p (.ok tools) now st).2.agentRegistry = st.agentRegistry := by
  have hstep : connectToServer p (.ok tools) now st
      = connectTry cid (p.transport.getD "stdio") p (.ok tools) now st := by
    unfold connectToServer
    rw [hcid]
    simp [hl, hinact]
  rw [hstep]
  unfold connectTry
  rw [htrans]
  refine ⟨rfl, ?_, rfl⟩
  show lookupConn (insertConn st.connections cid _) cid = _
  rw [lookupConn_insertConn, if_pos rfl]

/-- Claim C10 witness: reconnecting the dead id a succeeds and yields a
fresh record with empty lists, although the old record still tracked an
agent-registered tool; the registry keeps that tool. -/
theorem claim_C10_witness :
    (connectToServer stdioParamsA (.ok []) 9 stWithInactive).1.status = "success" ∧
    lookupConn (connectToServer stdioParamsA (.ok []) 9
        stWithInactive).2.connections "a"
      = some { connection_id := "a", transport := "stdio", url := "echo "
               register_time := 9, is_active := true, last_error := none
               loaded_tool_names := [], agent_loaded_tool_names := [] } ∧
    (connectToServer stdioParamsA (.ok []) 9 stWithInactive).2.agentRegistry
      = stWithInactive.agentRegistry :=
  claim_C10 stdioParamsA [] 9 stWithInactive "a" inactiveInfo
    (.stdio "echo" [] none) rfl rfl rfl rfl

/-- Claim C6: load_tools without registry loading never touches the
agent registry yet upserts a catalog entry for every named remote tool;
load_tools with registry loading but no agent fails validation before
any side effect. -/
theorem claim_C6 :
    (∀ (p : MCPParams) (tools : List RemoteTool) (regFail : String → Option String)
        (now : Int) (st : SysState) (cid : String) (config : ConnectionInfo),
        p.load_into_agent_registry = false →
        validateConnection p.connection_id true st.connections = .ok (cid, config) →
        (loadToolsToAgent p (.ok tools) regFail now st).2.agentRegistry
            = st.agentRegistry ∧
          (loadToolsToAgent p (.ok tools) regFail now st).1.status = "success" ∧
          ∀ t ∈ tools, t.tool_name ≠ "" →
            ∃ x ∈ (loadToolsToAgent p (.ok tools) regFail now st).2.catalog.tools,
              entryHasName x t.tool_name = true) ∧
    (∀ (p : MCPParams) (listRes : Except String (List RemoteTool))
        (regFail : String → Option String) (now : Int) (st : SysState),
        p.load_into_agent_registry = true → p.agentSupplied = false →
        loadToolsToAgent p listRes regFail now st
          = (errEnv "agent instance is required when load_into_agent_registry=True", st)) := by
  constructor
  · intro p tools regFail now st cid config hflag hv
    unfold loadToolsToAgent
    refine ⟨by simp [hflag, hv], by simp [hflag, hv], ?_⟩
    intro t ht hne
    have hmem := (registerMcpToolsInCatalog_names cid tools now st.catalog).2 t ht hne
    simpa [hflag, hv] using hmem
  · intro p listRes regFail now st hflag hagent
    unfold loadToolsToAgent
    simp [hflag, hagent]

/-- Claim C6 witness: loading two remote tools catalog-first on the live
connection leaves the registry alone and makes both tools
discoverable. -/
theorem claim_C6_witness :
    (loadToolsToAgent { connection_id := some "a" }
        (.ok [⟨"t1", "d1", .obj []⟩]) (fun _ => none) 5 stWithActive).2.agentRegistry
      = stWithActive.agentRegistry ∧
    ∃ x ∈ (loadToolsToAgent { connection_id := some "a" }
        (.ok [⟨"t1", "d1", .obj []⟩]) (fun _ => none) 5 stWithActive).2.catalog.tools,
      entryHasName x "t1" = true := by
  have h := claim_C6.1 { connection_id := some "a" } [⟨"t1", "d1", .obj []⟩]
    (fun _ => none) 5 stWithActive "a" activeInfo rfl rfl
  exact ⟨h.1, h.2.2 ⟨"t1", "d1", .obj []⟩ (by simp) (by decide)⟩

/-- Claim C7: register_entry upserts by name (two registrations of the
same name leave exactly one entry, bearing the second description), and
the merge underneath is the shallow dict update in which present fields
overwrite and omitted fields are retained. -/
theorem claim_C7 :
    (∀ (c : CatalogState) (n : String), n ≠ "" → countName c.tools n ≤ 1 →
      ∀ (d1 d2 : String) (is1 is2 : Option JVal) (or1 or2 : String)
        (ss1 ss2 cat1 cat2 p1 p2 lp1 lp2 ep1 ep2 up1 up2 : Option String)
        (t1 t2 : Int),
        countName (registerEntry (registerEntry c n d1 is1 or1 ss1 cat1 p1 lp1 ep1 up1 t1)
            n d2 is2 or2 ss2 cat2 p2 lp2 ep2 up2 t2).tools n = 1 ∧
        ∀ x ∈ (registerEntry (registerEntry c n d1 is1 or1 ss1 cat1 p1 lp1 ep1 up1 t1)
            n d2 is2 or2 ss2 cat2 p2 lp2 ep2 up2 t2).tools,
          entryHasName x n = true → dget x "description" = some (.str d2)) ∧
    (∀ (old new : Entry) (k : String),
        dget (dictUpdate old new) k
          = match dget new k with | some v => some v | none => dget old k) := by
  constructor
  · intro c n hn hcount d1 d2 is1 is2 or1 or2 ss1 ss2 cat1 cat2 p1 p2 lp1 lp2
      ep1 ep2 up1 up2 t1 t2
    have h1 := registerEntry_tools c n d1 is1 or1 ss1 cat1 p1 lp1 ep1 up1 t1 hn
    have h2 := registerEntry_tools (registerEntry c n d1 is1 or1 ss1 cat1 p1 lp1 ep1 up1 t1)
      n d2 is2 or2 ss2 cat2 p2 lp2 ep2 up2 t2 hn
    have hname1 := entryHasName_registerEntryDict n d1 is1 or1 ss1 cat1 p1 lp1 ep1 up1 t1
    have hname2 := entryHasName_registerEntryDict n d2 is2 or2 ss2 cat2 p2 lp2 ep2 up2 t2
    have hcount1 : countName (registerEntry c n d1 is1 or1 ss1 cat1 p1 lp1 ep1 up1 t1).tools n
        = 1 := by
      rw [h1]
      exact countName_upsert c.tools n _ hname1 hcount
    constructor
    · rw [h2]
      exact countName_upsert _ n _ hname2 (by omega)
    · intro x hx hxn
      rw [h2] at hx
      have hdesc := upsert_desc _ n _ hname2 (by simp [registerEntryDict, dget])
        (by omega) x hx hxn
      rw [hdesc]
      simp [registerEntryDict, dget]
  · exact dget_dictUpdate

/-- Claim C7 witness: two registrations of x on the empty catalog leave
one entry described by the second call. -/
theorem claim_C7_witness :
    countName (registerEntry (registerEntry emptyCatalog "x" "first" none "custom"
        none none none none none none 1)
        "x" "second" none "custom" none none none none none none 2).tools "x" = 1 ∧
    ∀ x ∈ (registerEntry (registerEntry emptyCatalog "x" "first" none "custom"
        none none none none none none 1)
        "x" "second" none "custom" none none none none none none 2).tools,
      entryHasName x "x" = true → dget x "description" = some (.str "second") :=
  claim_C7.1 emptyCatalog "x" (by decide) (by decide) "first" "second" none none
    "custom" "custom" none none none none none none none none none none none none 1 2

/-- Claim C8, failing input: after one register_entry the catalog holds
one entry, and build_catalog_overview raises TypeError (sorted(set(..))
over the tool-info dicts appended by _add_entry_to_category) instead of
returning an overview; the state, in particular the cache, is untouched,
so no generated_at is ever produced and the claimed scenario cannot
complete. -/
theorem claim_C8_bug :
    (buildCatalogOverview
        (registerEntry emptyCatalog "x" "d" none "custom" none none none none none none 1)
        none 2 3 4).1 = .error "TypeError: unhashable type: 'dict'" ∧
    (buildCatalogOverview
        (registerEntry emptyCatalog "x" "d" none "custom" none none none none none none 1)
        none 2 3 4).2
      = registerEntry emptyCatalog "x" "d" none "custom" none none none none none none 1 := by
  exact ⟨rfl, rfl⟩

/-- Collecting over the index range in order reproduces the mapped
list. -/
theorem range_filterMap_get {α β : Type} (l : List α) (g : α → β) :
    (List.range l.length).filterMap (fun i => (l.get? i).map g) = l.map g := by
  induction l with
  | nil => simp
  | cons a t ih =>
    rw [List.length_cons, List.range_succ_eq_map]
    simp only [List.get?_eq_getElem?] at ih
    simp [List.filterMap_map, Function.comp_def, ih]

/-- The names of a completed batch loop are exactly the submitted names
in submission order. -/
theorem batchLoop_names (agent : BatchAgent) :
    ∀ (invs : List BatchInvocation) (results : List Entry),
      batchLoop agent invs = .ok results →
      results.map resultNameText = invs.map (fun inv => inv.name.getD "") := by
  intro invs
  induction invs with
  | nil =>
    intro results h
    unfold batchLoop at h
    cases h
    rfl
  | cons inv rest ih =>
    intro results h
    unfold batchLoop at h
    cases hn : inv.name with
    | none => rw [hn] at h; simp at h
    | some n =>
      rw [hn] at h
      cases hr : batchLoop agent rest with
      | error e => rw [hr] at h; simp [Except.map] at h
      | ok rs =>
        rw [hr] at h
        simp only [Except.map] at h
        cases h
        have htail := ih rs hr
        simp only [List.map_cons, htail, hn, Option.getD]
        congr 1
        cases hl : agent.lookupTool n with
        | none => simp [hl, resultNameText, dget]
        | some f =>
          cases hf : f inv.arguments with
          | ok v => simp [hl, hf, resultNameText, dget]
          | error e => simp [hl, hf, resultNameText, dget]

/-- An agent whose every tool succeeds, for the batch order
counterexample. -/
def orderedBatchAgent : BatchAgent := ⟨true, fun _ => some (fun _ => .ok .null)⟩

/-- Claim C9 counterexample: the generic batch tool is a sequential
loop, so its results always come back in submission order (here t1
before t2, the submitted order), not in a completion order of a worker
pool; batch.py holds no pool at all. -/
theorem claim_C9_counterexample :
    batchResultNames orderedBatchAgent [⟨some "t1", []⟩, ⟨some "t2", []⟩]
      = some ["t1", "t2"] := rfl

/-- Claim C9, amended: the batch dispatch in tool_catalog runs its
parallel fan-out through a pool of min(n, 4) ≤ 4 workers and collects
results in as_completed (completion) order, a permutation of the
per-invocation results; the generic batch tool executes sequentially and
its results are always in submission order. -/
theorem claim_C9_amended :
    (∀ n : Nat, toolCatalogPoolWorkers n ≤ 4) ∧
    (∀ (agentExec : String → List (String × JVal) → Except String JVal)
        (resolved : List (String × List (String × JVal)))
        (completionOrder : List Nat),
        completionOrder.Perm (List.range resolved.length) →
        (toolCatalogExecuteParallel agentExec resolved completionOrder).Perm
          (resolved.map (fun r => executeOne agentExec r.1 r.2))) ∧
    (∀ (agent : BatchAgent) (invs : List BatchInvocation) (results : List Entry),
        batchLoop agent invs = .ok results →
        results.map resultNameText = invs.map (fun inv => inv.name.getD "")) := by
  refine ⟨fun n => Nat.min_le_right n 4, ?_, batchLoop_names⟩
  intro agentExec resolved completionOrder hperm
  unfold toolCatalogExecuteParallel
  have h1 := hperm.filterMap
    (fun i => (resolved.get? i).map (fun r => executeOne agentExec r.1 r.2))
  rwa [range_filterMap_get] at h1

/-- Claim C9 witness: a pool bound instance, a two-task completion order
that permutes the submissions, and a concrete sequential batch run. -/
theorem claim_C9_amended_witness :
    toolCatalogPoolWorkers 9 ≤ 4 ∧
    (toolCatalogExecuteParallel (fun _ _ => .ok .null) [("a", []), ("b", [])]
        [1, 0]).Perm
      ([("a", []), ("b", [])].map
        (fun r => executeOne (fun _ _ => .ok .null) r.1 r.2)) ∧
    ([[("name", JVal.str "t1"), ("status", JVal.str "success"),
        ("result", JVal.null)]] : List Entry).map resultNameText
      = ([⟨some "t1", []⟩] : List BatchInvocation).map (fun inv => inv.name.getD "") :=
  ⟨claim_C9_amended.1 9,
   claim_C9_amended.2.1 (fun _ _ => .ok .null) [("a", []), ("b", [])] [1, 0] (by decide),
   claim_C9_amended.2.2 orderedBatchAgent [⟨some "t1", []⟩] _ rfl⟩
